import Mathlib

/-!
Verification of the rate-resolution and report-aggregation core of the
freshbooks-tools repository, as a shallow embedding in Lean.

Modelling conventions, used throughout:

* Python `Decimal` values are modelled by exact rationals (`ℚ`).  Every
  `Decimal` operation appearing in the modelled code paths (addition,
  multiplication, comparison, construction from a literal) is exact in the
  28-digit default context for the inputs the claims are about; `Decimal`
  division is modelled by exact rational division, which is faithful
  whenever the quotient fits the 28-significant-digit context.
* Python `dict` objects are modelled as association lists.  A dict built by
  repeated assignment is modelled by prepending each new binding, so that a
  first-match lookup realizes the dict "last write wins" overwrite rule.
* Python truthiness: a `Decimal` is truthy iff nonzero, a string is truthy
  iff nonempty, an int is truthy iff nonzero, `None` is falsy.
* Remote HTTP responses are parameters (a `Remote` record fixed for the
  whole run, matching the single-threaded execution model).  An endpoint
  whose caller catches exceptions is modelled with an `Except Unit` valued
  field; endpoints whose callers have no handler are modelled by their
  parsed successful responses, since a failure there aborts the whole
  command and is outside the claims considered here.
* Network effects are made explicit: each stateful operation returns its
  value, the updated cache state, and the list of endpoint fetches it
  performed.
-/

namespace FreshbooksTools

/-- First-match lookup in an association list (models Python dict lookup;
dicts are built with newest binding first, see the conventions above). -/
def dictGet {α β : Type} [DecidableEq α] (l : List (α × β)) (k : α) : Option β :=
  match l with
  | [] => none
  | (k', v) :: rest => if k' = k then some v else dictGet rest k

/-- Test `o is not None and o > 0`, the filter `get_billable_rate` applies to
every source (rates.py lines 135, 140, 144, 148, 154). -/
def posOpt (o : Option ℚ) : Bool :=
  match o with
  | some r => decide (0 < r)
  | none => false

/-- Truthiness of an optional string (Python `if email:`). -/
def strTruthy (o : Option String) : Bool :=
  match o with
  | some s => decide (s ≠ "")
  | none => false

/-! ## config.py : RatesConfig -/

/-- One entry of the `members` mapping of `RatesConfig` (config.py):
a per-identity dict that may carry a cost rate and/or a billable rate.
The `name` key is never read by the rate logic and is omitted. -/
structure MemberInfo where
  cost_rate : Option ℚ
  billable_rate : Option ℚ
deriving DecidableEq, Repr

/-- Model of `RatesConfig` (config.py lines 66-103): rate overrides keyed by email or
by stringified identity_id, per-identity member entries, and global
defaults.  Loaded once at startup and read-only afterwards. -/
structure RatesConfig where
  cost_rates : List (String × ℚ)
  billable_rates : List (String × ℚ)
  default_cost_rate : Option ℚ
  default_billable_rate : Option ℚ
  members : List (ℕ × MemberInfo)
deriving DecidableEq, Repr

/-- Model of `RatesConfig.get_cost_rate` (config.py lines 79-81):
`self.cost_rates.get(email, self.default_cost_rate)`. -/
def RatesConfig.get_cost_rate (c : RatesConfig) (email : String) : Option ℚ :=
  match dictGet c.cost_rates email with
  | some r => some r
  | none => c.default_cost_rate

/-- Model of `RatesConfig.get_cost_rate_by_id` (config.py lines 83-90): member entry
first, then the stringified-id key, then the global default cost rate. -/
def RatesConfig.get_cost_rate_by_id (c : RatesConfig) (identity_id : ℕ) : Option ℚ :=
  match dictGet c.members identity_id with
  | some info => info.cost_rate
  | none =>
    match dictGet c.cost_rates (toString identity_id) with
    | some r => some r
    | none => c.default_cost_rate

/-- Model of `RatesConfig.get_billable_rate` (config.py lines 92-94):
`self.billable_rates.get(email, self.default_billable_rate)`. -/
def RatesConfig.get_billable_rate (c : RatesConfig) (email : String) : Option ℚ :=
  match dictGet c.billable_rates email with
  | some r => some r
  | none => c.default_billable_rate

/-- Model of `RatesConfig.get_billable_rate_by_id` (config.py lines 96-103): member
entry first, then the stringified-id key; no default fallback here. -/
def RatesConfig.get_billable_rate_by_id (c : RatesConfig) (identity_id : ℕ) : Option ℚ :=
  match dictGet c.members identity_id with
  | some info => info.billable_rate
  | none =>
    match dictGet c.billable_rates (toString identity_id) with
    | some r => some r
    | none => none

/-! ## models/schemas.py : the records consulted by the modelled code paths

Fields that no modelled operation reads (uuid, job_title, business ids,
vis_state of services, ...) are omitted. -/

/-- Model of `TeamMember` (schemas.py lines 144-162). -/
structure TeamMember where
  first_name : Option String
  middle_name : Option String
  last_name : Option String
  email : Option String
  active : Bool
  identity_id : Option ℕ
deriving DecidableEq, Repr

/-- Model of `TeamMember.display_name` (schemas.py lines 158-162):
`" ".join(p for p in parts if p) or self.email or "Unknown"`. -/
def TeamMember.display_name (m : TeamMember) : String :=
  let joined := String.intercalate " "
    (([m.first_name, m.middle_name, m.last_name]).filterMap
      (fun p =>
        match p with
        | some s => if s = "" then none else some s
        | none => none))
  if joined ≠ "" then joined
  else
    match m.email with
    | some e => if e ≠ "" then e else "Unknown"
    | none => "Unknown"

/-- Model of `Staff` (schemas.py lines 165-181). -/
structure Staff where
  id : ℕ
  fname : Option String
  lname : Option String
  email : Option String
  rate : Option ℚ
  display_name : Option String
deriving DecidableEq, Repr

/-- Model of `Staff.name` (schemas.py lines 176-181): a truthy `display_name` wins,
otherwise the stripped first+last combination, otherwise a truthy email,
otherwise `"Unknown"`. -/
def Staff.name (st : Staff) : String :=
  let base := ((st.fname.getD "") ++ " " ++ (st.lname.getD "")).trim
  let fallback_nm :=
    if base ≠ "" then base
    else
      match st.email with
      | some e => if e ≠ "" then e else "Unknown"
      | none => "Unknown"
  match st.display_name with
  | some d => if d ≠ "" then d else fallback_nm
  | none => fallback_nm

/-- Model of `Service` (schemas.py lines 190-198); only `id` and `name` are read by
the modelled operations. -/
structure Service where
  id : ℕ
  name : String
deriving DecidableEq, Repr

/-- One member dict stored by `TeamAPI.list_project_members` (team.py
lines 78-85); `company`, `active` and `role` are never read back by the
modelled lookups and are omitted. -/
structure ProjectMember where
  first_name : Option String
  last_name : Option String
  email : Option String
deriving DecidableEq, Repr

/-- One raw record of the `team_member_rates` response (rates.py lines
37-41); both fields may be missing or falsy.  The rate value is modelled
as an already-parsed number, so the truthiness test
`if identity_id and rate` means both present and nonzero. -/
structure TMRateRec where
  identity_id : Option ℕ
  rate : Option ℚ
deriving DecidableEq, Repr

/-! ## The remote service and the cache state

`Remote` holds the (parsed) responses of every endpoint the modelled code
can hit; it is fixed for the whole run.  The `team_member_rates` and
per-service-rate endpoints are the ones whose callers catch exceptions
(rates.py lines 32-46 and 91-99), so they carry an `Except Unit`.
`project_members` stands for the result of the per-project membership scan
of `TeamAPI.list_project_members` (team.py lines 57-90), with its
first-wins dedup and its swallowed per-project failures already applied. -/
structure Remote where
  team_members : List TeamMember
  staffs : List Staff
  project_members : List (ℕ × ProjectMember)
  team_member_rates : Except Unit (List TMRateRec)
  service_rate_resp : ℕ → Except Unit (Option ℚ)
  services : List Service

/-- The mutable caches of one `RatesAPI` + `TeamAPI` pair (rates.py lines
19-21, team.py lines 15-17). -/
structure ApiState where
  services_cache : Option (List (ℕ × Service))
  service_rates_cache : List (ℕ × Option ℚ)
  team_member_rates_cache : Option (List (ℕ × ℚ))
  team_cache : Option (List (ℕ × TeamMember))
  staff_cache : Option (List (ℕ × Staff))
  project_members_cache : Option (List (ℕ × ProjectMember))
deriving DecidableEq, Repr

/-- The caches of a freshly constructed `RatesAPI` / `TeamAPI`. -/
def initState : ApiState :=
  { services_cache := none
    service_rates_cache := []
    team_member_rates_cache := none
    team_cache := none
    staff_cache := none
    project_members_cache := none }

/-- A network fetch event, tagged with the endpoint hit. -/
inductive Endpoint where
  | teamMemberRates
  | serviceRate (service_id : ℕ)
  | services
  | teamMembers
  | staffs
  | projects
deriving DecidableEq, Repr

/-- Dict `{identity_id: rate}` built by `get_team_member_rates` (rates.py lines
36-41); records with a falsy identity or a falsy rate are skipped. -/
def buildTeamMemberRates (recs : List TMRateRec) : List (ℕ × ℚ) :=
  recs.foldl
    (fun acc r =>
      match r.identity_id, r.rate with
      | some i, some v => if i ≠ 0 ∧ v ≠ 0 then (i, v) :: acc else acc
      | _, _ => acc) []

/-- Dict `{m.identity_id: m}` built by `get_team_by_identity_id` (team.py lines
128-132); members with a falsy identity_id are skipped. -/
def buildTeamById (ms : List TeamMember) : List (ℕ × TeamMember) :=
  ms.foldl
    (fun acc m =>
      match m.identity_id with
      | some i => if i ≠ 0 then (i, m) :: acc else acc
      | none => acc) []

/-- Dict `{staff.id: staff}` built by `get_staff_by_id` (team.py lines 141-146). -/
def buildStaffById (ss : List Staff) : List (ℕ × Staff) :=
  ss.foldl (fun acc st => (st.id, st) :: acc) []

/-- Dict `{s.id: s}` built by `get_services_by_id` (rates.py line 82). -/
def buildServicesById (ss : List Service) : List (ℕ × Service) :=
  ss.foldl (fun acc sv => (sv.id, sv) :: acc) []

/-! ## team.py : TeamAPI -/

/-- Model of `TeamAPI.get_team_by_identity_id` (team.py lines 122-134): cached, else
one fetch of the team-members endpoint. -/
def get_team_by_identity_id (rm : Remote) (s : ApiState) :
    List (ℕ × TeamMember) × ApiState × List Endpoint :=
  match s.team_cache with
  | some m => (m, s, [])
  | none =>
    let m := buildTeamById rm.team_members
    (m, { s with team_cache := some m }, [Endpoint.teamMembers])

/-- Model of `TeamAPI.get_staff_by_id` (team.py lines 136-147): cached, else one
fetch of the deprecated staff endpoint. -/
def get_staff_by_id (rm : Remote) (s : ApiState) :
    List (ℕ × Staff) × ApiState × List Endpoint :=
  match s.staff_cache with
  | some m => (m, s, [])
  | none =>
    let m := buildStaffById rm.staffs
    (m, { s with staff_cache := some m }, [Endpoint.staffs])

/-- Model of `TeamAPI.list_project_members` (team.py lines 48-90): cached, else the
projects scan (modelled as one composite fetch event). -/
def list_project_members (rm : Remote) (s : ApiState) :
    List (ℕ × ProjectMember) × ApiState × List Endpoint :=
  match s.project_members_cache with
  | some m => (m, s, [])
  | none =>
    (rm.project_members, { s with project_members_cache := some rm.project_members },
      [Endpoint.projects])

/-- Python renders `None` as the string `"None"` inside an f-string; the
project-member name branch of `get_team_member_name` hits this because the
stored first/last names may be `None` (team.py lines 78-80 and 163). -/
def pyOptStr (o : Option String) : String :=
  match o with
  | some s => s
  | none => "None"

/-- Model of `TeamAPI.get_team_member_name` (team.py lines 149-166): team directory,
then staff, then project members, else `"Unknown (<identity_id>)"`. -/
def get_team_member_name (rm : Remote) (s : ApiState) (identity_id : ℕ) :
    String × ApiState × List Endpoint :=
  let t := get_team_by_identity_id rm s
  match dictGet t.1 identity_id with
  | some m => (m.display_name, t.2.1, t.2.2)
  | none =>
    let st := get_staff_by_id rm t.2.1
    match dictGet st.1 identity_id with
    | some sm => (sm.name, st.2.1, t.2.2 ++ st.2.2)
    | none =>
      let pm := list_project_members rm st.2.1
      let unknown := "Unknown (" ++ toString identity_id ++ ")"
      match dictGet pm.1 identity_id with
      | some m =>
        let nm := ((pyOptStr m.first_name) ++ " " ++ (pyOptStr m.last_name)).trim
        let res :=
          if nm ≠ "" then nm
          else
            match m.email with
            | some e => if e ≠ "" then e else unknown
            | none => unknown
        (res, pm.2.1, t.2.2 ++ st.2.2 ++ pm.2.2)
      | none => (unknown, pm.2.1, t.2.2 ++ st.2.2 ++ pm.2.2)

/-- Model of `TeamAPI.get_team_member_email` (team.py lines 168-183): team directory,
then staff, then project members, else absent. -/
def get_team_member_email (rm : Remote) (s : ApiState) (identity_id : ℕ) :
    Option String × ApiState × List Endpoint :=
  let t := get_team_by_identity_id rm s
  match dictGet t.1 identity_id with
  | some m => (m.email, t.2.1, t.2.2)
  | none =>
    let st := get_staff_by_id rm t.2.1
    match dictGet st.1 identity_id with
    | some sm => (sm.email, st.2.1, t.2.2 ++ st.2.2)
    | none =>
      let pm := list_project_members rm st.2.1
      match dictGet pm.1 identity_id with
      | some m => (m.email, pm.2.1, t.2.2 ++ st.2.2 ++ pm.2.2)
      | none => (none, pm.2.1, t.2.2 ++ st.2.2 ++ pm.2.2)

/-! ## rates.py : RatesAPI -/

/-- Model of `RatesAPI.get_team_member_rates` (rates.py lines 23-46): cached, else
one fetch; a failed fetch caches and returns the empty mapping. -/
def get_team_member_rates (rm : Remote) (s : ApiState) :
    List (ℕ × ℚ) × ApiState × List Endpoint :=
  match s.team_member_rates_cache with
  | some m => (m, s, [])
  | none =>
    match rm.team_member_rates with
    | Except.ok recs =>
      let m := buildTeamMemberRates recs
      (m, { s with team_member_rates_cache := some m }, [Endpoint.teamMemberRates])
    | Except.error _ =>
      ([], { s with team_member_rates_cache := some [] }, [Endpoint.teamMemberRates])

/-- Model of `RatesAPI.get_team_member_billable_rate` (rates.py lines 48-51). -/
def get_team_member_billable_rate (rm : Remote) (s : ApiState) (identity_id : ℕ) :
    Option ℚ × ApiState × List Endpoint :=
  let r := get_team_member_rates rm s
  (dictGet r.1 identity_id, r.2.1, r.2.2)

/-- Model of `RatesAPI.get_services_by_id` (rates.py lines 76-83): cached, else one
fetch of the services list. -/
def get_services_by_id (rm : Remote) (s : ApiState) :
    List (ℕ × Service) × ApiState × List Endpoint :=
  match s.services_cache with
  | some m => (m, s, [])
  | none =>
    let m := buildServicesById rm.services
    (m, { s with services_cache := some m }, [Endpoint.services])

/-- Model of `RatesAPI.get_service_rate` (rates.py lines 85-102): per-service cache
first; on a miss, one fetch, with a truthy rate cached and returned and
every other outcome (falsy rate, missing field, exception) cached as an
explicit "no rate". -/
def get_service_rate (rm : Remote) (s : ApiState) (service_id : ℕ) :
    Option ℚ × ApiState × List Endpoint :=
  match dictGet s.service_rates_cache service_id with
  | some cached => (cached, s, [])
  | none =>
    let fetched : Option ℚ :=
      match rm.service_rate_resp service_id with
      | Except.ok (some r) => if r ≠ 0 then some r else none
      | Except.ok none => none
      | Except.error _ => none
    (fetched,
      { s with service_rates_cache := (service_id, fetched) :: s.service_rates_cache },
      [Endpoint.serviceRate service_id])

/-- Model of `RatesAPI.get_staff_rate` (rates.py lines 111-116). -/
def get_staff_rate (rm : Remote) (s : ApiState) (identity_id : ℕ) :
    Option ℚ × ApiState × List Endpoint :=
  let r := get_staff_by_id rm s
  match dictGet r.1 identity_id with
  | some st => (st.rate, r.2.1, r.2.2)
  | none => (none, r.2.1, r.2.2)

/-- Steps 3-6 of `RatesAPI.get_billable_rate` (rates.py lines 143-157):
team-member rate, staff rate, email-keyed config rate, global default. -/
def billable_tail (rm : Remote) (cfg : RatesConfig) (s : ApiState) (identity_id : ℕ) :
    Option ℚ × ApiState × List Endpoint :=
  let tr := get_team_member_billable_rate rm s identity_id
  if posOpt tr.1 then tr
  else
    let sr := get_staff_rate rm tr.2.1 identity_id
    if posOpt sr.1 then (sr.1, sr.2.1, tr.2.2 ++ sr.2.2)
    else
      let em := get_team_member_email rm sr.2.1 identity_id
      let res : Option ℚ :=
        match em.1 with
        | some e =>
          if e ≠ "" then
            let cr := cfg.get_billable_rate e
            if posOpt cr then cr else cfg.default_billable_rate
          else cfg.default_billable_rate
        | none => cfg.default_billable_rate
      (res, em.2.1, tr.2.2 ++ sr.2.2 ++ em.2.2)

/-- Steps 2-6 of `RatesAPI.get_billable_rate` (rates.py lines 138-157): the
service-rate source is consulted only for a truthy `service_id`. -/
def billable_after_override (rm : Remote) (cfg : RatesConfig) (s : ApiState)
    (identity_id : ℕ) (service_id : Option ℕ) : Option ℚ × ApiState × List Endpoint :=
  match service_id with
  | some sid =>
    if sid ≠ 0 then
      let sr := get_service_rate rm s sid
      if posOpt sr.1 then sr
      else
        let t := billable_tail rm cfg sr.2.1 identity_id
        (t.1, t.2.1, sr.2.2 ++ t.2.2)
    else billable_tail rm cfg s identity_id
  | none => billable_tail rm cfg s identity_id

/-- Model of `RatesAPI.get_billable_rate` (rates.py lines 118-157). -/
def get_billable_rate (rm : Remote) (cfg : RatesConfig) (s : ApiState)
    (identity_id : ℕ) (service_id : Option ℕ) : Option ℚ × ApiState × List Endpoint :=
  let config_override := cfg.get_billable_rate_by_id identity_id
  if posOpt config_override then (config_override, s, [])
  else billable_after_override rm cfg s identity_id service_id

/-- Model of `RatesAPI.get_cost_rate` (rates.py lines 159-176): the id-keyed config
lookup wins whenever it yields a value (with no zero filter), then the
email-keyed config lookup, then the global default. -/
def get_cost_rate (rm : Remote) (cfg : RatesConfig) (s : ApiState) (identity_id : ℕ) :
    Option ℚ × ApiState × List Endpoint :=
  match cfg.get_cost_rate_by_id identity_id with
  | some r => (some r, s, [])
  | none =>
    let em := get_team_member_email rm s identity_id
    let res : Option ℚ :=
      match em.1 with
      | some e =>
        if e ≠ "" then
          match cfg.get_cost_rate e with
          | some r => some r
          | none => cfg.default_cost_rate
        else cfg.default_cost_rate
      | none => cfg.default_cost_rate
    (res, em.2.1, em.2.2)

/-- Model of `RatesAPI.clear_cache` (rates.py lines 178-182): resets the services,
per-service-rate and team-member-rate caches only. -/
def clear_cache (s : ApiState) : ApiState :=
  { s with
    services_cache := none
    service_rates_cache := []
    team_member_rates_cache := none }

/-! ## reports.py : calculate_dso and get_days_in_period -/

/-- Round a rational to the nearest integer, ties to the even neighbor:
the default `ROUND_HALF_EVEN` of Python `Decimal` context arithmetic. -/
def rnearestEven (x : ℚ) : ℤ :=
  if x - ⌊x⌋ < 1/2 then ⌊x⌋
  else if 1/2 < x - ⌊x⌋ then ⌊x⌋ + 1
  else if ⌊x⌋ % 2 = 0 then ⌊x⌋ else ⌊x⌋ + 1

/-- Model of `Decimal.quantize(Decimal("0.1"))` with the default context rounding
(`ROUND_HALF_EVEN`; reports.py sets no other rounding mode): the nearest
multiple of one tenth, ties to the even tenth. -/
def quantizeTenthsHalfEven (q : ℚ) : ℚ :=
  (rnearestEven (10 * q) : ℚ) / 10

/-- Model of `calculate_dso` (reports.py lines 11-30): absent for revenue ≤ 0, else
`(ar_balance / revenue) * days` quantized to one decimal place. -/
def calculate_dso (ar_balance revenue : ℚ) (days_in_period : ℕ) : Option ℚ :=
  if revenue ≤ 0 then none
  else some (quantizeTenthsHalfEven ((ar_balance / revenue) * (days_in_period : ℚ)))

/-- Model of `calendar.isleap` as used by reports.py: divisible by 4 and (not by 100
or by 400).  `Int.emod` agrees with Python `%` for a positive modulus. -/
def isleap (year : ℤ) : Bool :=
  (year % 4 == 0) && (year % 100 != 0 || year % 400 == 0)

/-- Model of `calendar.monthrange(year, month)[1]`: the day count of the month, or
none outside 1..12 (where Python raises IllegalMonthError). -/
def monthrange_days (year month : ℤ) : Option ℕ :=
  if month = 2 then some (if isleap year then 29 else 28)
  else if month = 4 ∨ month = 6 ∨ month = 9 ∨ month = 11 then some 30
  else if 1 ≤ month ∧ month ≤ 12 then some 31
  else none

/-- Model of `get_days_in_period` (reports.py lines 33-56); raising is modelled by
`Except.error`.  Python `//` is floor division, hence `Int.fdiv`. -/
def get_days_in_period (year month : ℤ) (resolution : String) : Except String ℕ :=
  if resolution = "m" then
    match monthrange_days year month with
    | some d => Except.ok d
    | none => Except.error "IllegalMonthError"
  else if resolution = "q" then
    let quarter_month := (Int.fdiv (month - 1) 3) * 3 + 1
    match monthrange_days year quarter_month, monthrange_days year (quarter_month + 1),
        monthrange_days year (quarter_month + 2) with
    | some a, some b, some c => Except.ok (a + b + c)
    | _, _, _ => Except.error "IllegalMonthError"
  else if resolution = "y" then
    Except.ok (if isleap year then 366 else 365)
  else Except.error ("Unknown resolution: " ++ resolution)

/-! ## cli.py : the time-summary aggregation (lines 355-377 and 384-441) -/

/-- Model of `TimeEntry` restricted to the fields the aggregation loop reads
(schemas.py lines 17-38). -/
structure TimeEntry where
  identity_id : ℕ
  service_id : Option ℕ
  duration : ℕ
  billable : Bool
deriving DecidableEq, Repr

/-- Model of `TimeEntry.hours` (schemas.py lines 35-38): duration in seconds over
3600 (exact-rational model of the Decimal division). -/
def TimeEntry.hours (e : TimeEntry) : ℚ :=
  (e.duration : ℚ) / 3600

/-- One iteration of the totals loop of cli.py (lines 360-367 and 390-397):
a billable entry with a truthy resolved billable rate adds
`hours * rate` to the billable total, and any entry with a truthy resolved
cost rate adds `hours * cost_rate` to the cost total. -/
def sumStep (rm : Remote) (cfg : RatesConfig) (acc : ℚ × ℚ × ApiState) (e : TimeEntry) :
    ℚ × ℚ × ApiState :=
  let pass1 :=
    if e.billable then
      let r := get_billable_rate rm cfg acc.2.2 e.identity_id e.service_id
      match r.1 with
      | some v => (if v ≠ 0 then acc.1 + e.hours * v else acc.1, r.2.1)
      | none => (acc.1, r.2.1)
    else (acc.1, acc.2.2)
  let cr := get_cost_rate rm cfg pass1.2 e.identity_id
  let tc :=
    match cr.1 with
    | some v => if v ≠ 0 then acc.2.1 + e.hours * v else acc.2.1
    | none => acc.2.1
  (pass1.1, tc, cr.2.1)

/-- The whole totals loop (cli.py lines 390-397), folding `sumStep` over
the entries in source order. -/
def time_summary_totals (rm : Remote) (cfg : RatesConfig) (s : ApiState)
    (entries : List TimeEntry) : ℚ × ℚ × ApiState :=
  entries.foldl (sumStep rm cfg) (0, 0, s)

/-- Model of `margin = (profit / total_billable * 100) if total_billable else 0`
(cli.py lines 375 and 400), with `profit = total_billable - total_cost`. -/
def margin_of (total_billable total_cost : ℚ) : ℚ :=
  if total_billable ≠ 0 then (total_billable - total_cost) / total_billable * 100 else 0

/-! ## Specification-side definitions

These follow the words of the specification and of the claims, to be
compared with the code-derived definitions above. -/

/-- First element of a list of optional rates that is strictly positive,
the selection rule of the claimed billable-rate priority chain. -/
def firstPos : List (Option ℚ) → Option ℚ
  | [] => none
  | o :: rest => if posOpt o then o else firstPos rest

/-- The six billable-rate sources in the order the claim lists them:
config override by identity_id, service rate (consulted only for a truthy
service_id; the id-0 case is treated as "not provided", see the claim on
that), team-member-rate table, staff rate, config override keyed by the
resolved email, global default.  Each source value is evaluated against
the same remote data and cache state the resolver would see. -/
def specBillableSources (rm : Remote) (cfg : RatesConfig) (s : ApiState)
    (identity_id : ℕ) (service_id : Option ℕ) : List (Option ℚ) :=
  let v1 := cfg.get_billable_rate_by_id identity_id
  let step2 : Option ℚ × ApiState :=
    match service_id with
    | some sid =>
      if sid ≠ 0 then
        let r := get_service_rate rm s sid
        (r.1, r.2.1)
      else (none, s)
    | none => (none, s)
  let tr := get_team_member_rates rm step2.2
  let v3 := dictGet tr.1 identity_id
  let str4 := get_staff_rate rm tr.2.1 identity_id
  let em := get_team_member_email rm str4.2.1 identity_id
  let v5 : Option ℚ :=
    match em.1 with
    | some e => if e ≠ "" then dictGet cfg.billable_rates e else none
    | none => none
  [v1, step2.1, v3, str4.1, v5, cfg.default_billable_rate]

/-- The billable-rate resolution as the claim words it: the first source
strictly greater than zero, else the global default (possibly absent). -/
def claimBillableRate (rm : Remote) (cfg : RatesConfig) (s : ApiState)
    (identity_id : ℕ) (service_id : Option ℕ) : Option ℚ :=
  match firstPos (specBillableSources rm cfg s identity_id service_id) with
  | some r => some r
  | none => cfg.default_billable_rate

/-- The cost-rate chain as the original claim words it: (1) config override
keyed by identity_id (member entry or stringified-id entry, with no
default fallback), (2) config override keyed by the resolved email, (3)
global default cost rate. -/
def claimCostChainStated (rm : Remote) (cfg : RatesConfig) (s : ApiState)
    (identity_id : ℕ) : Option ℚ :=
  let idOverride : Option ℚ :=
    match dictGet cfg.members identity_id with
    | some info => info.cost_rate
    | none => dictGet cfg.cost_rates (toString identity_id)
  match idOverride with
  | some r => some r
  | none =>
    match (get_team_member_email rm s identity_id).1 with
    | some e =>
      if e ≠ "" then
        match dictGet cfg.cost_rates e with
        | some r => some r
        | none => cfg.default_cost_rate
      else cfg.default_cost_rate
    | none => cfg.default_cost_rate

/-- The email-then-default step of the amended cost chain: the email-keyed
cost override for the resolved (truthy) email, else the global default. -/
def costEmailStep (rm : Remote) (cfg : RatesConfig) (s : ApiState)
    (identity_id : ℕ) : Option ℚ :=
  match (get_team_member_email rm s identity_id).1 with
  | some e =>
    if e ≠ "" then
      match dictGet cfg.cost_rates e with
      | some r => some r
      | none => cfg.default_cost_rate
    else cfg.default_cost_rate
  | none => cfg.default_cost_rate

/-- The cost-rate chain as amended: a member entry for the identity wins
with its cost_rate when set and otherwise sends resolution directly to the
email step; with no member entry, the stringified-id override wins, then
the global default (so a configured default precedes the email-keyed
override), and only then the email-keyed override and the default. -/
def amendedCostChain (rm : Remote) (cfg : RatesConfig) (s : ApiState)
    (identity_id : ℕ) : Option ℚ :=
  match dictGet cfg.members identity_id with
  | some info =>
    match info.cost_rate with
    | some r => some r
    | none => costEmailStep rm cfg s identity_id
  | none =>
    match dictGet cfg.cost_rates (toString identity_id) with
    | some r => some r
    | none =>
      match cfg.default_cost_rate with
      | some d => some d
      | none => costEmailStep rm cfg s identity_id

/-- Round a rational to the nearest integer, ties away from zero: the
`ROUND_HALF_UP` mode the original DSO claim asserts. -/
def rnearestHalfUp (x : ℚ) : ℤ :=
  if x - ⌊x⌋ < 1/2 then ⌊x⌋
  else if 1/2 < x - ⌊x⌋ then ⌊x⌋ + 1
  else if x < 0 then ⌊x⌋ else ⌊x⌋ + 1

/-- Quantization to one decimal place with ties rounded half-up, as the
original DSO claim words it. -/
def quantizeTenthsHalfUp (q : ℚ) : ℚ :=
  (rnearestHalfUp (10 * q) : ℚ) / 10

/-- The Gregorian leap-year rule as the specification words it. -/
def specLeap (year : ℤ) : Bool :=
  decide ((4 : ℤ) ∣ year ∧ (¬ (100 : ℤ) ∣ year ∨ (400 : ℤ) ∣ year))

/-- The day count of a calendar month as the specification describes it:
28-31, with February depending on the leap year. -/
def specMonthDays (year month : ℤ) : ℕ :=
  if month = 2 then (if specLeap year then 29 else 28)
  else if month = 4 ∨ month = 6 ∨ month = 9 ∨ month = 11 then 30
  else 31

/-- Returns `true` exactly on fetch events against the per-service rate endpoint. -/
def Endpoint.is_service_fetch : Endpoint → Bool
  | Endpoint.serviceRate _ => true
  | _ => false

/-- Number of per-service-rate fetches in a fetch log. -/
def countServiceFetches (l : List Endpoint) : ℕ :=
  (l.filter Endpoint.is_service_fetch).length

/-! ## Shared lemmas -/

/-- The rounding `rnearestEven` is within half a unit of its argument. -/
lemma abs_rnearestEven_sub_le (x : ℚ) : |(rnearestEven x : ℚ) - x| ≤ 1 / 2 := by
  have hf : (⌊x⌋ : ℚ) ≤ x := Int.floor_le x
  have hf1 : x < ⌊x⌋ + 1 := Int.lt_floor_add_one x
  unfold rnearestEven
  split_ifs with h1 h2 h3
  · rw [abs_sub_comm, abs_of_nonneg (by linarith)]
    linarith
  · push_cast
    rw [abs_of_nonneg (by linarith)]
    linarith
  · rw [abs_sub_comm, abs_of_nonneg (by linarith)]
    linarith
  · push_cast
    rw [abs_of_nonneg (by linarith)]
    linarith

/-- When `rnearestEven` lands exactly half a unit away, it lands on an even
integer: the tie-breaking rule of `ROUND_HALF_EVEN`. -/
lemma rnearestEven_tie_even (x : ℚ)
    (h : |(rnearestEven x : ℚ) - x| = 1 / 2) : rnearestEven x % 2 = 0 := by
  have hf : (⌊x⌋ : ℚ) ≤ x := Int.floor_le x
  unfold rnearestEven at h ⊢
  split_ifs at h ⊢ with h1 h2 h3
  · exfalso
    rw [abs_sub_comm, abs_of_nonneg (by linarith)] at h
    exact absurd h (by linarith)
  · exfalso
    have hf1 : x < ⌊x⌋ + 1 := Int.lt_floor_add_one x
    rw [abs_of_nonneg (by push_cast; linarith)] at h
    push_cast at h
    linarith
  · exact h3
  · omega

/-! ## Claim C4 : DSO -/

/-- C4 (counterexample): the claim as stated is false — `calculate_dso`
rounds ties to even, not half-up.  At `ar_balance = 3.05`, `revenue = 1`,
`days = 1` the raw value is exactly 3.05; the code yields 3.0 while the
claimed half-up rounding yields 3.1. -/
theorem claim_C4_counterexample :
    calculate_dso (61 / 20) 1 1 = some 3 ∧
    quantizeTenthsHalfUp ((61 / 20 : ℚ) / 1 * 1) = 31 / 10 ∧
    calculate_dso (61 / 20) 1 1 ≠ some (quantizeTenthsHalfUp ((61 / 20 : ℚ) / 1 * 1)) := by
  have h1 : calculate_dso (61 / 20) 1 1 = some 3 := by
    norm_num [calculate_dso, quantizeTenthsHalfEven, rnearestEven]
  have h2 : quantizeTenthsHalfUp ((61 / 20 : ℚ) / 1 * 1) = 31 / 10 := by
    norm_num [quantizeTenthsHalfUp, rnearestHalfUp]
  refine ⟨h1, h2, ?_⟩
  rw [h1, h2]
  norm_num

/-- C4 (amended): for revenue > 0, `dso` equals `(ar_balance / revenue) *
days` rounded to exactly one decimal place using round-half-even (a raw
value of 3.05 rounds to 3.0, not 3.1): the result is the integer produced
by `rnearestEven`, divided by ten, and that integer is within half a tenth
of the raw value, landing on an even integer at exact ties.  For every
revenue ≤ 0 (including negative revenue) `dso` returns absent and does not
raise. -/
theorem claim_C4_dso_half_even (ar_balance revenue revenue2 : ℚ) (days : ℕ)
    (hpos : 0 < revenue) (hnonpos : revenue2 ≤ 0) :
    calculate_dso ar_balance revenue days
      = some ((rnearestEven (10 * ((ar_balance / revenue) * (days : ℚ))) : ℚ) / 10) ∧
    |(rnearestEven (10 * ((ar_balance / revenue) * (days : ℚ))) : ℚ)
        - 10 * ((ar_balance / revenue) * (days : ℚ))| ≤ 1 / 2 ∧
    (|(rnearestEven (10 * ((ar_balance / revenue) * (days : ℚ))) : ℚ)
        - 10 * ((ar_balance / revenue) * (days : ℚ))| = 1 / 2
      → rnearestEven (10 * ((ar_balance / revenue) * (days : ℚ))) % 2 = 0) ∧
    calculate_dso ar_balance revenue2 days = none := by
  refine ⟨?_, abs_rnearestEven_sub_le _, rnearestEven_tie_even _, ?_⟩
  · rw [calculate_dso, if_neg (by linarith)]
    rfl
  · rw [calculate_dso, if_pos hnonpos]

/-- C4 (witness): the amended theorem at `dso(1000, 10000, 30)` (which the
specification gives as 3.0) and at negative revenue −5. -/
theorem claim_C4_witness :
    (0 : ℚ) < 10000 ∧ (-5 : ℚ) ≤ 0 ∧
    calculate_dso 1000 10000 30 = some 3 ∧
    calculate_dso 1000 (-5) 30 = none := by
  have h := claim_C4_dso_half_even 1000 10000 (-5) 30 (by norm_num) (by norm_num)
  refine ⟨by norm_num, by norm_num, ?_, h.2.2.2⟩
  rw [h.1]
  norm_num [rnearestEven]

/-! ## Claim C6 : period length -/

/-- The leap test of the code agrees with the Gregorian rule of the
specification. -/
lemma isleap_eq_specLeap (year : ℤ) : isleap year = specLeap year := by
  simp only [isleap, specLeap]
  rw [Bool.eq_iff_iff]
  simp only [Bool.and_eq_true, Bool.or_eq_true, beq_iff_eq, bne_iff_ne, decide_eq_true_eq,
    Int.dvd_iff_emod_eq_zero]

set_option maxRecDepth 8192 in
/-- C6: for resolution "m" and a month in 1..12, `days_in_period` is the
exact day count of that calendar month (28-31, with February depending on
the Gregorian leap rule); for "q", the sum of the day counts of the three
months starting at the quarter start `((month-1)//3)*3 + 1`; for "y", 366
in leap years and 365 otherwise; and any other resolution code is a fatal
error, not a soft failure. -/
theorem claim_C6_days_in_period (year month : ℤ) (res : String)
    (h1 : 1 ≤ month) (h2 : month ≤ 12)
    (hm : res ≠ "m") (hq : res ≠ "q") (hy : res ≠ "y") :
    get_days_in_period year month "m" = Except.ok (specMonthDays year month) ∧
    get_days_in_period year month "q"
      = Except.ok (specMonthDays year ((Int.fdiv (month - 1) 3) * 3 + 1)
          + specMonthDays year ((Int.fdiv (month - 1) 3) * 3 + 2)
          + specMonthDays year ((Int.fdiv (month - 1) 3) * 3 + 3)) ∧
    get_days_in_period year month "y" = Except.ok (if specLeap year then 366 else 365) ∧
    get_days_in_period year month res = Except.error ("Unknown resolution: " ++ res) := by
  refine ⟨?_, ?_, ?_, ?_⟩
  · interval_cases month <;>
      cases hL : specLeap year <;>
      simp [get_days_in_period, monthrange_days, specMonthDays, isleap_eq_specLeap, hL]
  · interval_cases month <;>
      cases hL : specLeap year <;>
      simp [get_days_in_period, monthrange_days, specMonthDays, isleap_eq_specLeap, hL,
        Int.fdiv]
  · cases hL : specLeap year <;>
      simp [get_days_in_period, isleap_eq_specLeap, hL]
  · simp [get_days_in_period, hm, hq, hy]

/-- C6 (witness): the theorem at year 2024, month 2 (a leap February) and
the unrecognized resolution code "x". -/
theorem claim_C6_witness :
    (1 : ℤ) ≤ 2 ∧ (2 : ℤ) ≤ 12 ∧ "x" ≠ "m" ∧ "x" ≠ "q" ∧ "x" ≠ "y" ∧
    (get_days_in_period 2024 2 "m" = Except.ok (specMonthDays 2024 2) ∧
      get_days_in_period 2024 2 "q"
        = Except.ok (specMonthDays 2024 ((Int.fdiv (2 - 1) 3) * 3 + 1)
            + specMonthDays 2024 ((Int.fdiv (2 - 1) 3) * 3 + 2)
            + specMonthDays 2024 ((Int.fdiv (2 - 1) 3) * 3 + 3)) ∧
      get_days_in_period 2024 2 "y" = Except.ok (if specLeap 2024 then 366 else 365) ∧
      get_days_in_period 2024 2 "x" = Except.error ("Unknown resolution: " ++ "x")) :=
  ⟨by norm_num, by norm_num, by decide, by decide, by decide,
    claim_C6_days_in_period 2024 2 "x" (by norm_num) (by norm_num)
      (by decide) (by decide) (by decide)⟩

/-! ## Sample data used by witnesses and counterexamples -/

/-- A team member with identity 7 and email "a@b.c". -/
def sampleMember7 : TeamMember :=
  { first_name := some "Ann"
    middle_name := none
    last_name := some "Lee"
    email := some "a@b.c"
    active := true
    identity_id := some 7 }

/-- A remote service knowing only `sampleMember7`, with an empty
team-member-rate table and a failing per-service-rate endpoint. -/
def sampleRemote : Remote :=
  { team_members := [sampleMember7]
    staffs := []
    project_members := []
    team_member_rates := Except.ok []
    service_rate_resp := fun _ => Except.error ()
    services := [] }

/-- A config with an email-keyed cost override of 40 for "a@b.c" and a
global default cost rate of 60, and no id-keyed entries. -/
def sampleCostConfig : RatesConfig :=
  { cost_rates := [("a@b.c", 40)]
    billable_rates := []
    default_cost_rate := some 60
    default_billable_rate := none
    members := [] }

/-! ## Claim C2 : cost-rate chain -/

/-- C2 (counterexample): identity 7 has no id-keyed cost override, an
email-keyed override of 40, and a configured global default of 60.  The
claimed chain (id override, then email override, then default) yields 40,
but the code returns the default 60: `get_cost_rate_by_id` itself falls
back to the global default, which therefore short-circuits the email
lookup. -/
theorem claim_C2_counterexample :
    (get_cost_rate sampleRemote sampleCostConfig initState 7).1 = some 60 ∧
    claimCostChainStated sampleRemote sampleCostConfig initState 7 = some 40 ∧
    (get_cost_rate sampleRemote sampleCostConfig initState 7).1
      ≠ claimCostChainStated sampleRemote sampleCostConfig initState 7 := by
  refine ⟨by decide, by decide, by decide⟩

/-- The email-keyed step of `get_cost_rate`, written with
`RatesConfig.get_cost_rate` as rates.py lines 170-174 do, equals
`costEmailStep`. -/
lemma cost_email_eq (rm : Remote) (cfg : RatesConfig) (s : ApiState) (identity_id : ℕ) :
    (match (get_team_member_email rm s identity_id).1 with
      | some e =>
        if e ≠ "" then
          match cfg.get_cost_rate e with
          | some r => some r
          | none => cfg.default_cost_rate
        else cfg.default_cost_rate
      | none => cfg.default_cost_rate)
    = costEmailStep rm cfg s identity_id := by
  unfold costEmailStep RatesConfig.get_cost_rate
  cases (get_team_member_email rm s identity_id).1 with
  | none => rfl
  | some e =>
    by_cases he : e = ""
    · simp [he]
    · simp only [he, ne_eq, not_false_iff, if_true]
      cases dictGet cfg.cost_rates e with
      | none => cases cfg.default_cost_rate <;> rfl
      | some r => rfl

/-- C2 (amended): `cost_rate` resolves through: (1) the member entry for
identity_id when it carries a cost_rate (a member entry without one sends
resolution directly to the email step); (2) with no member entry, the
stringified-id override; (3) then the global default cost rate, which —
when configured — is returned before the email-keyed override is ever
consulted; (4) only with no configured default does the email-keyed
override apply, followed by (5) the global default.  In particular, for an
identity with no identity_id-keyed cost override but with an email-keyed
override, `cost_rate` returns the global default, not the email override,
whenever a default is configured. -/
theorem claim_C2_cost_chain (rm : Remote) (cfg : RatesConfig) (s : ApiState)
    (identity_id : ℕ) :
    (get_cost_rate rm cfg s identity_id).1 = amendedCostChain rm cfg s identity_id := by
  cases hmem : dictGet cfg.members identity_id with
  | some info =>
    cases hc : info.cost_rate with
    | some r =>
      simp [get_cost_rate, amendedCostChain, RatesConfig.get_cost_rate_by_id, hmem, hc]
    | none =>
      simp only [get_cost_rate, amendedCostChain, RatesConfig.get_cost_rate_by_id, hmem, hc]
      exact cost_email_eq rm cfg s identity_id
  | none =>
    cases hsid : dictGet cfg.cost_rates (toString identity_id) with
    | some r =>
      simp [get_cost_rate, amendedCostChain, RatesConfig.get_cost_rate_by_id, hmem, hsid]
    | none =>
      cases hd : cfg.default_cost_rate with
      | some d =>
        simp [get_cost_rate, amendedCostChain, RatesConfig.get_cost_rate_by_id, hmem,
          hsid, hd]
      | none =>
        simp only [get_cost_rate, amendedCostChain, RatesConfig.get_cost_rate_by_id,
          hmem, hsid, hd, costEmailStep, RatesConfig.get_cost_rate]
        cases (get_team_member_email rm s identity_id).1 with
        | none => rfl
        | some e =>
          by_cases he : e = ""
          · simp [he]
          · simp only [he, ne_eq, not_false_iff, if_true]
            cases dictGet cfg.cost_rates e <;> rfl

/-! ## Claim C1 : billable-rate chain -/

lemma posOpt_none : posOpt none = false := rfl

/-- Selecting the first strictly positive element of a one-element chain
and falling back to that same element yields the element itself. -/
lemma match_firstPos_single (d : Option ℚ) :
    (match (if posOpt d then d else none) with
      | some r => some r
      | none => d) = d := by
  cases d with
  | none => simp [posOpt]
  | some r => by_cases h : (0 : ℚ) < r <;> simp [posOpt, h]

/-- The value of `billable_tail` is the first strictly positive element of
the last four sources of the claimed chain (team table, staff rate,
email-keyed override, default), with the default as fallback. -/
lemma billable_tail_eq (rm : Remote) (cfg : RatesConfig) (s : ApiState) (identity_id : ℕ) :
    (billable_tail rm cfg s identity_id).1 =
      match firstPos [
        dictGet (get_team_member_rates rm s).1 identity_id,
        (get_staff_rate rm (get_team_member_rates rm s).2.1 identity_id).1,
        (match (get_team_member_email rm
            (get_staff_rate rm (get_team_member_rates rm s).2.1 identity_id).2.1
            identity_id).1 with
          | some e => if e ≠ "" then dictGet cfg.billable_rates e else none
          | none => none),
        cfg.default_billable_rate] with
      | some r => some r
      | none => cfg.default_billable_rate := by
  simp only [billable_tail, get_team_member_billable_rate]
  cases h3 : posOpt (dictGet (get_team_member_rates rm s).1 identity_id) with
  | true =>
    simp only [h3, if_true, firstPos]
    cases hv : dictGet (get_team_member_rates rm s).1 identity_id with
    | some r => rfl
    | none => rw [hv] at h3; simp [posOpt] at h3
  | false =>
    simp only [h3, Bool.false_eq_true, if_false, firstPos]
    cases h4 : posOpt (get_staff_rate rm (get_team_member_rates rm s).2.1 identity_id).1 with
    | true =>
      simp only [h4, if_true]
      cases hv : (get_staff_rate rm (get_team_member_rates rm s).2.1 identity_id).1 with
      | some r => rfl
      | none => rw [hv] at h4; simp [posOpt] at h4
    | false =>
      simp only [h4, Bool.false_eq_true, if_false]
      cases hem : (get_team_member_email rm
          (get_staff_rate rm (get_team_member_rates rm s).2.1 identity_id).2.1
          identity_id).1 with
      | none => exact (match_firstPos_single cfg.default_billable_rate).symm
      | some e =>
        by_cases he : e = ""
        · simp only [he, ne_eq, not_true_eq_false, if_false]
          exact (match_firstPos_single cfg.default_billable_rate).symm
        · simp only [he, ne_eq, not_false_iff, if_true, RatesConfig.get_billable_rate]
          cases hbe : dictGet cfg.billable_rates e with
          | none =>
            cases hd : cfg.default_billable_rate with
            | none => simp [posOpt]
            | some d => by_cases hdp : (0 : ℚ) < d <;> simp [posOpt, hdp]
          | some x =>
            by_cases hxp : (0 : ℚ) < x
            · simp [posOpt, hxp]
            · simp only [posOpt, hxp, decide_eq_false_iff_not, Bool.false_eq_true, if_false]
              exact (match_firstPos_single cfg.default_billable_rate).symm

/-- C1: `billable_rate` returns the first source — in the order config
override by identity_id, service rate (for a provided, truthy service_id),
team-member-rate table, staff rate, config override by resolved email,
global default — that yields a rate strictly greater than zero, and the
global default (possibly absent) when none does.  In particular, a
positive config override by identity_id wins over every other source. -/
theorem claim_C1_billable_chain (rm : Remote) (cfg : RatesConfig) (s : ApiState)
    (identity_id : ℕ) (service_id : Option ℕ) :
    (get_billable_rate rm cfg s identity_id service_id).1
      = claimBillableRate rm cfg s identity_id service_id := by
  simp only [get_billable_rate, claimBillableRate, specBillableSources]
  cases h1 : posOpt (cfg.get_billable_rate_by_id identity_id) with
  | true =>
    simp only [h1, if_true, firstPos]
    cases hv : cfg.get_billable_rate_by_id identity_id with
    | some r => rfl
    | none => rw [hv] at h1; simp [posOpt] at h1
  | false =>
    simp only [h1, Bool.false_eq_true, if_false, billable_after_override]
    cases service_id with
    | none =>
      rw [billable_tail_eq]
      simp only [firstPos, h1, posOpt_none, Bool.false_eq_true, if_false]
    | some sid =>
      by_cases hz : sid = 0
      · simp only [hz, ne_eq, not_true_eq_false, if_false]
        rw [billable_tail_eq]
        simp only [firstPos, h1, posOpt_none, Bool.false_eq_true, if_false]
      · simp only [ne_eq, hz, not_false_iff, if_true]
        cases h2 : posOpt (get_service_rate rm s sid).1 with
        | true =>
          simp only [firstPos, h1, h2, Bool.false_eq_true, if_false, if_true]
          cases hv : (get_service_rate rm s sid).1 with
          | some r => simp [hv]
          | none => rw [hv] at h2; simp [posOpt] at h2
        | false =>
          simp only [h2, Bool.false_eq_true, if_false]
          rw [billable_tail_eq]
          simp only [firstPos, h1, h2, posOpt_none, Bool.false_eq_true, if_false]

/-! ## Claim C3 : zero-rate handling -/

/-- Step lemma: `billable_tail` reads the config only through the email-keyed billable
table and the billable default. -/
lemma billable_tail_congr (rm : Remote) (cfg cfg2 : RatesConfig)
    (hbr : cfg.billable_rates = cfg2.billable_rates)
    (hbd : cfg.default_billable_rate = cfg2.default_billable_rate)
    (s : ApiState) (identity_id : ℕ) :
    billable_tail rm cfg s identity_id = billable_tail rm cfg2 s identity_id := by
  simp only [billable_tail, RatesConfig.get_billable_rate, hbr, hbd]

/-- Same congruence for steps 2-6 of the billable resolution. -/
lemma billable_after_override_congr (rm : Remote) (cfg cfg2 : RatesConfig)
    (hbr : cfg.billable_rates = cfg2.billable_rates)
    (hbd : cfg.default_billable_rate = cfg2.default_billable_rate)
    (s : ApiState) (identity_id : ℕ) (service_id : Option ℕ) :
    billable_after_override rm cfg s identity_id service_id
      = billable_after_override rm cfg2 s identity_id service_id := by
  simp only [billable_after_override, billable_tail_congr rm cfg cfg2 hbr hbd]

/-- C3: a config billable override of exactly 0 by identity_id is treated
as absent — resolution behaves exactly as under a config whose id-keyed
billable override is missing (and is otherwise equal where the billable
resolution can look) — while a config cost override of exactly 0 is
returned as-is by `cost_rate`, with no fetch and no state change: no >0
filter is applied to cost rates. -/
theorem claim_C3_zero_asymmetry (rm : Remote) (s : ApiState) (identity_id : ℕ)
    (service_id : Option ℕ) (cfg cfg2 cfgc : RatesConfig)
    (hb : cfg.get_billable_rate_by_id identity_id = some 0)
    (hb2 : cfg2.get_billable_rate_by_id identity_id = none)
    (hbr : cfg.billable_rates = cfg2.billable_rates)
    (hbd : cfg.default_billable_rate = cfg2.default_billable_rate)
    (hc : cfgc.get_cost_rate_by_id identity_id = some 0) :
    get_billable_rate rm cfg s identity_id service_id
      = get_billable_rate rm cfg2 s identity_id service_id ∧
    get_cost_rate rm cfgc s identity_id = (some 0, s, []) := by
  constructor
  · simp only [get_billable_rate, hb, hb2, posOpt, decide_eq_true_eq]
    norm_num
    exact billable_after_override_congr rm cfg cfg2 hbr hbd s identity_id service_id
  · simp [get_cost_rate, hc]

/-- A config whose only entry is a billable override of exactly 0 for
identity 5, next to a billable default of 10. -/
def sampleZeroBillableConfig : RatesConfig :=
  { cost_rates := []
    billable_rates := []
    default_cost_rate := none
    default_billable_rate := some 10
    members := [(5, { cost_rate := none, billable_rate := some 0 })] }

/-- The same config with the member entry removed. -/
def sampleNoOverrideConfig : RatesConfig :=
  { cost_rates := []
    billable_rates := []
    default_cost_rate := none
    default_billable_rate := some 10
    members := [] }

/-- A config with a cost override of exactly 0 for identity 5 (keyed by
the stringified id) and a cost default of 60. -/
def sampleZeroCostConfig : RatesConfig :=
  { cost_rates := [("5", 0)]
    billable_rates := []
    default_cost_rate := some 60
    default_billable_rate := none
    members := [] }

/-- C3 (witness): the theorem at identity 5 under the sample configs. -/
theorem claim_C3_witness :
    sampleZeroBillableConfig.get_billable_rate_by_id 5 = some 0 ∧
    sampleNoOverrideConfig.get_billable_rate_by_id 5 = none ∧
    sampleZeroCostConfig.get_cost_rate_by_id 5 = some 0 ∧
    (get_billable_rate sampleRemote sampleZeroBillableConfig initState 5 none
        = get_billable_rate sampleRemote sampleNoOverrideConfig initState 5 none ∧
      get_cost_rate sampleRemote sampleZeroCostConfig initState 5 = (some 0, initState, [])) :=
  ⟨by decide, by decide, by decide,
    claim_C3_zero_asymmetry sampleRemote initState 5 none
      sampleZeroBillableConfig sampleNoOverrideConfig sampleZeroCostConfig
      (by decide) (by decide) (by decide) (by decide) (by decide)⟩

/-! ## Claim C5 : aggregation of non-billable entries and margin -/

/-- C5: in the time-summary aggregation, an entry with billable=false
contributes nothing to the billable total regardless of any billable rate,
but still contributes `hours * cost_rate` to the cost total when a cost
rate resolves (and nothing when none resolves); and a billable total of
exactly 0 gives a margin of exactly 0, with no division-by-zero, whatever
the cost total. -/
theorem claim_C5_nonbillable_and_margin (rm : Remote) (cfg : RatesConfig) (s : ApiState)
    (tb tc : ℚ) (e1 e2 : TimeEntry) (r c : ℚ)
    (h1 : e1.billable = false) (h2 : e2.billable = false)
    (hr : (get_cost_rate rm cfg s e1.identity_id).1 = some r)
    (hn : (get_cost_rate rm cfg s e2.identity_id).1 = none) :
    (sumStep rm cfg (tb, tc, s) e1).1 = tb ∧
    (sumStep rm cfg (tb, tc, s) e1).2.1 = tc + e1.hours * r ∧
    (sumStep rm cfg (tb, tc, s) e2).1 = tb ∧
    (sumStep rm cfg (tb, tc, s) e2).2.1 = tc ∧
    margin_of 0 c = 0 := by
  refine ⟨?_, ?_, ?_, ?_, by simp [margin_of]⟩
  · simp [sumStep, h1, hr]
  · by_cases hr0 : r = 0
    · simp [sumStep, h1, hr, hr0]
    · simp [sumStep, h1, hr, hr0]
  · simp [sumStep, h2, hn]
  · simp [sumStep, h2, hn]

/-- A config with a cost override of 55 for identity 7 and nothing else. -/
def sampleAggConfig : RatesConfig :=
  { cost_rates := [("7", 55)]
    billable_rates := []
    default_cost_rate := none
    default_billable_rate := none
    members := [] }

/-- A one-hour non-billable entry of identity 7 (whose cost rate resolves
to 55 under `sampleAggConfig`). -/
def sampleEntry7 : TimeEntry :=
  { identity_id := 7, service_id := none, duration := 3600, billable := false }

/-- A non-billable entry of identity 8, for which no cost rate resolves
under `sampleAggConfig`. -/
def sampleEntry8 : TimeEntry :=
  { identity_id := 8, service_id := none, duration := 1800, billable := false }

/-- C5 (witness): the theorem on the sample entries with zero running
totals and a nonzero cost total for the margin conjunct. -/
theorem claim_C5_witness :
    sampleEntry7.billable = false ∧ sampleEntry8.billable = false ∧
    (get_cost_rate sampleRemote sampleAggConfig initState sampleEntry7.identity_id).1
      = some 55 ∧
    (get_cost_rate sampleRemote sampleAggConfig initState sampleEntry8.identity_id).1
      = none ∧
    ((sumStep sampleRemote sampleAggConfig (0, 0, initState) sampleEntry7).1 = 0 ∧
      (sumStep sampleRemote sampleAggConfig (0, 0, initState) sampleEntry7).2.1
        = 0 + sampleEntry7.hours * 55 ∧
      (sumStep sampleRemote sampleAggConfig (0, 0, initState) sampleEntry8).1 = 0 ∧
      (sumStep sampleRemote sampleAggConfig (0, 0, initState) sampleEntry8).2.1 = 0 ∧
      margin_of 0 5 = 0) :=
  ⟨by decide, by decide, by decide, by decide,
    claim_C5_nonbillable_and_margin sampleRemote sampleAggConfig initState 0 0
      sampleEntry7 sampleEntry8 55 5 (by decide) (by decide) (by decide) (by decide)⟩

/-! ## Claim C7 : identity name and email resolution order -/

/-- C7: name and email resolution consults the team-member directory, then
the staff directory, then the project-group membership, in that order:
an identity in both the team and staff directories resolves to the
team-member email (so with differing emails, not to the staff email) and
to the team-member display name; an identity only in the staff directory
resolves to the staff data; and an identity in none of the three sources
yields the synthetic name `"Unknown (<identity_id>)"` and an absent
email.  (The directories are given as populated caches.) -/
theorem claim_C7_identity_resolution (rm : Remote) (s : ApiState)
    (tm : List (ℕ × TeamMember)) (stf : List (ℕ × Staff)) (pm : List (ℕ × ProjectMember))
    (idA idB idC : ℕ) (mA : TeamMember) (stA stB : Staff)
    (hc1 : s.team_cache = some tm) (hc2 : s.staff_cache = some stf)
    (hc3 : s.project_members_cache = some pm)
    (hA1 : dictGet tm idA = some mA) (_hA2 : dictGet stf idA = some stA)
    (hAe : mA.email ≠ stA.email)
    (hB1 : dictGet tm idB = none) (hB2 : dictGet stf idB = some stB)
    (hC1 : dictGet tm idC = none) (hC2 : dictGet stf idC = none)
    (hC3 : dictGet pm idC = none) :
    (get_team_member_email rm s idA).1 = mA.email ∧
    (get_team_member_email rm s idA).1 ≠ stA.email ∧
    (get_team_member_name rm s idA).1 = mA.display_name ∧
    (get_team_member_email rm s idB).1 = stB.email ∧
    (get_team_member_name rm s idB).1 = stB.name ∧
    (get_team_member_name rm s idC).1 = "Unknown (" ++ toString idC ++ ")" ∧
    (get_team_member_email rm s idC).1 = none := by
  refine ⟨?_, ?_, ?_, ?_, ?_, ?_, ?_⟩ <;>
    simp [get_team_member_email, get_team_member_name, get_team_by_identity_id,
      get_staff_by_id, list_project_members, hc1, hc2, hc3, hA1, hAe,
      hB1, hB2, hC1, hC2, hC3]

/-- A staff record for identity 1 whose email differs from
`sampleMember7`'s. -/
def sampleStaff1 : Staff :=
  { id := 1, fname := some "Ann", lname := some "Lee"
    email := some "staff1@x", rate := some 80, display_name := none }

/-- A staff record for identity 2, absent from the team directory. -/
def sampleStaff2 : Staff :=
  { id := 2, fname := some "Bob", lname := some "Kay"
    email := some "staff2@x", rate := none, display_name := none }

/-- A cache state holding `sampleMember7` as identity 1's team record and
the two staff records, with an empty project-member snapshot. -/
def sampleDirState : ApiState :=
  { initState with
    team_cache := some [(1, sampleMember7)]
    staff_cache := some [(1, sampleStaff1), (2, sampleStaff2)]
    project_members_cache := some [] }

/-- C7 (witness): the theorem on `sampleDirState` at identities 1 (team
and staff, differing emails), 2 (staff only) and 3 (unknown). -/
theorem claim_C7_witness :
    sampleDirState.team_cache = some [(1, sampleMember7)] ∧
    dictGet [(1, sampleMember7)] 1 = some sampleMember7 ∧
    dictGet [(1, sampleStaff1), (2, sampleStaff2)] 1 = some sampleStaff1 ∧
    sampleMember7.email ≠ sampleStaff1.email ∧
    ((get_team_member_email sampleRemote sampleDirState 1).1 = sampleMember7.email ∧
      (get_team_member_email sampleRemote sampleDirState 1).1 ≠ sampleStaff1.email ∧
      (get_team_member_name sampleRemote sampleDirState 1).1 = sampleMember7.display_name ∧
      (get_team_member_email sampleRemote sampleDirState 2).1 = sampleStaff2.email ∧
      (get_team_member_name sampleRemote sampleDirState 2).1 = sampleStaff2.name ∧
      (get_team_member_name sampleRemote sampleDirState 3).1 = "Unknown (" ++ toString 3 ++ ")" ∧
      (get_team_member_email sampleRemote sampleDirState 3).1 = none) :=
  ⟨by decide, by decide, by decide, by decide,
    claim_C7_identity_resolution sampleRemote sampleDirState
      [(1, sampleMember7)] [(1, sampleStaff1), (2, sampleStaff2)] []
      1 2 3 sampleMember7 sampleStaff1 sampleStaff2
      (by decide) (by decide) (by decide) (by decide) (by decide) (by decide)
      (by decide) (by decide) (by decide) (by decide) (by decide)⟩

/-! ## Claim C10 : service_id 0 is treated as absent -/

lemma csf_append (a b : List Endpoint) :
    countServiceFetches (a ++ b) = countServiceFetches a + countServiceFetches b := by
  simp [countServiceFetches, List.filter_append]

lemma csf_team_rates (rm : Remote) (s : ApiState) :
    countServiceFetches (get_team_member_rates rm s).2.2 = 0 := by
  unfold get_team_member_rates
  cases s.team_member_rates_cache with
  | some m => rfl
  | none => cases rm.team_member_rates <;> rfl

lemma csf_staff (rm : Remote) (s : ApiState) :
    countServiceFetches (get_staff_by_id rm s).2.2 = 0 := by
  unfold get_staff_by_id
  cases s.staff_cache <;> rfl

lemma csf_team (rm : Remote) (s : ApiState) :
    countServiceFetches (get_team_by_identity_id rm s).2.2 = 0 := by
  unfold get_team_by_identity_id
  cases s.team_cache <;> rfl

lemma csf_projects (rm : Remote) (s : ApiState) :
    countServiceFetches (list_project_members rm s).2.2 = 0 := by
  unfold list_project_members
  cases s.project_members_cache <;> rfl

lemma csf_staff_rate (rm : Remote) (s : ApiState) (identity_id : ℕ) :
    countServiceFetches (get_staff_rate rm s identity_id).2.2 = 0 := by
  unfold get_staff_rate
  cases h : dictGet (get_staff_by_id rm s).1 identity_id <;>
    simp [h, csf_staff rm s]

lemma csf_email (rm : Remote) (s : ApiState) (identity_id : ℕ) :
    countServiceFetches (get_team_member_email rm s identity_id).2.2 = 0 := by
  unfold get_team_member_email
  cases h1 : dictGet (get_team_by_identity_id rm s).1 identity_id
  case some m => simp [h1, csf_team rm s]
  case none =>
    cases h2 : dictGet (get_staff_by_id rm (get_team_by_identity_id rm s).2.1).1 identity_id
    case some sm =>
      simp [h1, h2, csf_append, csf_team rm s, csf_staff rm _]
    case none =>
      cases h3 : dictGet (list_project_members rm
          (get_staff_by_id rm (get_team_by_identity_id rm s).2.1).2.1).1 identity_id <;>
        simp [h1, h2, h3, csf_append, csf_team rm s, csf_staff rm _, csf_projects rm _]

lemma csf_tail (rm : Remote) (cfg : RatesConfig) (s : ApiState) (identity_id : ℕ) :
    countServiceFetches (billable_tail rm cfg s identity_id).2.2 = 0 := by
  unfold billable_tail get_team_member_billable_rate
  cases h3 : posOpt (dictGet (get_team_member_rates rm s).1 identity_id) with
  | true => simpa [h3] using csf_team_rates rm s
  | false =>
    simp only [h3, Bool.false_eq_true, if_false]
    cases h4 : posOpt (get_staff_rate rm (get_team_member_rates rm s).2.1 identity_id).1 with
    | true =>
      simp [h4, csf_append, csf_team_rates rm s, csf_staff_rate rm _ identity_id]
    | false =>
      simp [h4, csf_append, csf_team_rates rm s, csf_staff_rate rm _ identity_id,
        csf_email rm _ identity_id]

/-- C10: a `billable_rate` call with service_id equal to 0 behaves exactly
as if no service_id had been provided -- identical value, cache state and
fetch log -- and performs no per-service rate fetch: the per-service rate
endpoint is only consulted for a nonzero, non-absent service_id. -/
theorem claim_C10_service_id_zero (rm : Remote) (cfg : RatesConfig) (s : ApiState) (identity_id : ℕ) :
    get_billable_rate rm cfg s identity_id (some 0)
      = get_billable_rate rm cfg s identity_id none ∧
    countServiceFetches (get_billable_rate rm cfg s identity_id (some 0)).2.2 = 0 := by
  constructor
  · simp [get_billable_rate, billable_after_override]
  · unfold get_billable_rate
    cases h1 : posOpt (cfg.get_billable_rate_by_id identity_id) with
    | true => simp [h1]; rfl
    | false =>
      simp only [h1, Bool.false_eq_true, if_false, billable_after_override,
        ne_eq, not_true_eq_false, if_false]
      exact csf_tail rm cfg s identity_id


/-! ## Claim C9 : failure of the team-member-rate fetch -/

lemma service_rate_rm_indep (rm : Remote) (e : Except Unit (List TMRateRec))
    (s : ApiState) (sid : ℕ) :
    get_service_rate { rm with team_member_rates := e } s sid = get_service_rate rm s sid := rfl

lemma staff_rate_rm_indep (rm : Remote) (e : Except Unit (List TMRateRec))
    (s : ApiState) (identity_id : ℕ) :
    get_staff_rate { rm with team_member_rates := e } s identity_id
      = get_staff_rate rm s identity_id := rfl

lemma email_rm_indep (rm : Remote) (e : Except Unit (List TMRateRec))
    (s : ApiState) (identity_id : ℕ) :
    get_team_member_email { rm with team_member_rates := e } s identity_id
      = get_team_member_email rm s identity_id := rfl

lemma service_rate_frame_tmr (rm : Remote) (s : ApiState) (sid : ℕ) :
    ((get_service_rate rm s sid).2.1).team_member_rates_cache = s.team_member_rates_cache := by
  unfold get_service_rate
  cases h : dictGet s.service_rates_cache sid <;> rfl

lemma tmr_error_run (rm : Remote) (s : ApiState)
    (herr : rm.team_member_rates = Except.error ())
    (hcache : s.team_member_rates_cache = none) :
    get_team_member_rates rm s
      = ([], { s with team_member_rates_cache := some [] }, [Endpoint.teamMemberRates]) := by
  unfold get_team_member_rates
  rw [hcache, herr]

lemma tmr_error_eq_nil (rm : Remote) (s : ApiState)
    (herr : rm.team_member_rates = Except.error ())
    (hcache : s.team_member_rates_cache = none) :
    get_team_member_rates rm s
      = get_team_member_rates { rm with team_member_rates := Except.ok [] } s := by
  rw [tmr_error_run rm s herr hcache]
  unfold get_team_member_rates
  rw [hcache]
  rfl

lemma tail_rm_error (rm : Remote) (cfg : RatesConfig) (s : ApiState) (identity_id : ℕ)
    (herr : rm.team_member_rates = Except.error ())
    (hcache : s.team_member_rates_cache = none) :
    billable_tail rm cfg s identity_id
      = billable_tail { rm with team_member_rates := Except.ok [] } cfg s identity_id := by
  unfold billable_tail get_team_member_billable_rate
  simp only [tmr_error_eq_nil rm s herr hcache, staff_rate_rm_indep, email_rm_indep]

/-- C9: when the bulk team-member-rate fetch fails and that table is not
yet cached, `get_team_member_rates` caches and returns the empty mapping
(one fetch, no propagated error), and `billable_rate` resolves exactly as
it would against a remote whose team-member-rate response is the empty
list: the failed source is silently skipped and evaluation continues down
the chain. -/
theorem claim_C9_team_rates_failure (rm : Remote) (cfg : RatesConfig) (s : ApiState)
    (identity_id : ℕ) (service_id : Option ℕ)
    (herr : rm.team_member_rates = Except.error ())
    (hcache : s.team_member_rates_cache = none) :
    get_team_member_rates rm s
      = ([], { s with team_member_rates_cache := some [] }, [Endpoint.teamMemberRates]) ∧
    get_billable_rate rm cfg s identity_id service_id
      = get_billable_rate { rm with team_member_rates := Except.ok [] } cfg s
          identity_id service_id := by
  refine ⟨tmr_error_run rm s herr hcache, ?_⟩
  unfold get_billable_rate
  cases h1 : posOpt (cfg.get_billable_rate_by_id identity_id) with
  | true => simp [h1]
  | false =>
    simp only [h1, Bool.false_eq_true, if_false, billable_after_override]
    cases service_id with
    | none => exact tail_rm_error rm cfg s identity_id herr hcache
    | some sid =>
      by_cases hz : sid = 0
      · simp only [hz, ne_eq, not_true_eq_false, if_false]
        exact tail_rm_error rm cfg s identity_id herr hcache
      · simp only [ne_eq, hz, not_false_iff, if_true, service_rate_rm_indep]
        cases h2 : posOpt (get_service_rate rm s sid).1 with
        | true => simp [h2]
        | false =>
          simp only [h2, Bool.false_eq_true, if_false]
          rw [tail_rm_error rm cfg _ identity_id herr
            (by rw [service_rate_frame_tmr]; exact hcache)]


/-- Variant of `sampleRemote` with a failing team-member-rates endpoint. -/
def sampleFailRemote : Remote :=
  { sampleRemote with team_member_rates := Except.error () }

/-- C9 (witness): the theorem on `sampleFailRemote` from a cold cache; the
billable chain of identity 7 still resolves (to the default 10 of
`sampleNoOverrideConfig`). -/
theorem claim_C9_witness :
    sampleFailRemote.team_member_rates = Except.error () ∧
    initState.team_member_rates_cache = none ∧
    (get_team_member_rates sampleFailRemote initState
        = ([], { initState with team_member_rates_cache := some [] },
            [Endpoint.teamMemberRates]) ∧
      get_billable_rate sampleFailRemote sampleNoOverrideConfig initState 7 none
        = get_billable_rate { sampleFailRemote with team_member_rates := Except.ok [] }
            sampleNoOverrideConfig initState 7 none) :=
  ⟨rfl, rfl,
    claim_C9_team_rates_failure sampleFailRemote sampleNoOverrideConfig initState 7 none
      rfl rfl⟩

/-! ## Claim C8 : memoization and idempotence -/


lemma tmr_hit (rm : Remote) (s : ApiState) (m : List (ℕ × ℚ))
    (h : s.team_member_rates_cache = some m) :
    get_team_member_rates rm s = (m, s, []) := by
  unfold get_team_member_rates
  rw [h]

lemma staff_hit (rm : Remote) (s : ApiState) (m : List (ℕ × Staff))
    (h : s.staff_cache = some m) :
    get_staff_by_id rm s = (m, s, []) := by
  unfold get_staff_by_id
  rw [h]

lemma team_hit (rm : Remote) (s : ApiState) (m : List (ℕ × TeamMember))
    (h : s.team_cache = some m) :
    get_team_by_identity_id rm s = (m, s, []) := by
  unfold get_team_by_identity_id
  rw [h]

lemma pm_hit (rm : Remote) (s : ApiState) (m : List (ℕ × ProjectMember))
    (h : s.project_members_cache = some m) :
    list_project_members rm s = (m, s, []) := by
  unfold list_project_members
  rw [h]

lemma services_hit (rm : Remote) (s : ApiState) (m : List (ℕ × Service))
    (h : s.services_cache = some m) :
    get_services_by_id rm s = (m, s, []) := by
  unfold get_services_by_id
  rw [h]

lemma svc_hit (rm : Remote) (s : ApiState) (sid : ℕ) (v : Option ℚ)
    (h : dictGet s.service_rates_cache sid = some v) :
    get_service_rate rm s sid = (v, s, []) := by
  unfold get_service_rate
  rw [h]

lemma tmr_run_cache (rm : Remote) (s : ApiState) :
    ((get_team_member_rates rm s).2.1).team_member_rates_cache
      = some (get_team_member_rates rm s).1 := by
  unfold get_team_member_rates
  cases h : s.team_member_rates_cache with
  | some m => exact h
  | none => cases rm.team_member_rates <;> rfl

lemma staff_run_cache (rm : Remote) (s : ApiState) :
    ((get_staff_by_id rm s).2.1).staff_cache = some (get_staff_by_id rm s).1 := by
  unfold get_staff_by_id
  cases h : s.staff_cache with
  | some m => exact h
  | none => rfl

lemma team_run_cache (rm : Remote) (s : ApiState) :
    ((get_team_by_identity_id rm s).2.1).team_cache
      = some (get_team_by_identity_id rm s).1 := by
  unfold get_team_by_identity_id
  cases h : s.team_cache with
  | some m => exact h
  | none => rfl

lemma pm_run_cache (rm : Remote) (s : ApiState) :
    ((list_project_members rm s).2.1).project_members_cache
      = some (list_project_members rm s).1 := by
  unfold list_project_members
  cases h : s.project_members_cache with
  | some m => exact h
  | none => rfl

lemma services_run_cache (rm : Remote) (s : ApiState) :
    ((get_services_by_id rm s).2.1).services_cache = some (get_services_by_id rm s).1 := by
  unfold get_services_by_id
  cases h : s.services_cache with
  | some m => exact h
  | none => rfl

lemma svc_run_cache (rm : Remote) (s : ApiState) (sid : ℕ) :
    dictGet ((get_service_rate rm s sid).2.1).service_rates_cache sid
      = some (get_service_rate rm s sid).1 := by
  unfold get_service_rate
  cases h : dictGet s.service_rates_cache sid with
  | some v => exact h
  | none => simp [dictGet]

lemma frame_tmr_services_cache (rm : Remote) (s : ApiState) :
    ((get_team_member_rates rm s).2.1).services_cache = s.services_cache := by
  unfold get_team_member_rates
  cases h : s.team_member_rates_cache with
  | some m => rfl
  | none => cases rm.team_member_rates <;> rfl

lemma frame_tmr_service_rates_cache (rm : Remote) (s : ApiState) :
    ((get_team_member_rates rm s).2.1).service_rates_cache = s.service_rates_cache := by
  unfold get_team_member_rates
  cases h : s.team_member_rates_cache with
  | some m => rfl
  | none => cases rm.team_member_rates <;> rfl

lemma frame_tmr_team_cache (rm : Remote) (s : ApiState) :
    ((get_team_member_rates rm s).2.1).team_cache = s.team_cache := by
  unfold get_team_member_rates
  cases h : s.team_member_rates_cache with
  | some m => rfl
  | none => cases rm.team_member_rates <;> rfl

lemma frame_tmr_staff_cache (rm : Remote) (s : ApiState) :
    ((get_team_member_rates rm s).2.1).staff_cache = s.staff_cache := by
  unfold get_team_member_rates
  cases h : s.team_member_rates_cache with
  | some m => rfl
  | none => cases rm.team_member_rates <;> rfl

lemma frame_tmr_project_members_cache (rm : Remote) (s : ApiState) :
    ((get_team_member_rates rm s).2.1).project_members_cache = s.project_members_cache := by
  unfold get_team_member_rates
  cases h : s.team_member_rates_cache with
  | some m => rfl
  | none => cases rm.team_member_rates <;> rfl

lemma frame_staffop_services_cache (rm : Remote) (s : ApiState) :
    ((get_staff_by_id rm s).2.1).services_cache = s.services_cache := by
  unfold get_staff_by_id
  cases h : s.staff_cache <;> rfl

lemma frame_staffop_service_rates_cache (rm : Remote) (s : ApiState) :
    ((get_staff_by_id rm s).2.1).service_rates_cache = s.service_rates_cache := by
  unfold get_staff_by_id
  cases h : s.staff_cache <;> rfl

lemma frame_staffop_team_member_rates_cache (rm : Remote) (s : ApiState) :
    ((get_staff_by_id rm s).2.1).team_member_rates_cache = s.team_member_rates_cache := by
  unfold get_staff_by_id
  cases h : s.staff_cache <;> rfl

lemma frame_staffop_team_cache (rm : Remote) (s : ApiState) :
    ((get_staff_by_id rm s).2.1).team_cache = s.team_cache := by
  unfold get_staff_by_id
  cases h : s.staff_cache <;> rfl

lemma frame_staffop_project_members_cache (rm : Remote) (s : ApiState) :
    ((get_staff_by_id rm s).2.1).project_members_cache = s.project_members_cache := by
  unfold get_staff_by_id
  cases h : s.staff_cache <;> rfl

lemma frame_teamop_services_cache (rm : Remote) (s : ApiState) :
    ((get_team_by_identity_id rm s).2.1).services_cache = s.services_cache := by
  unfold get_team_by_identity_id
  cases h : s.team_cache <;> rfl

lemma frame_teamop_service_rates_cache (rm : Remote) (s : ApiState) :
    ((get_team_by_identity_id rm s).2.1).service_rates_cache = s.service_rates_cache := by
  unfold get_team_by_identity_id
  cases h : s.team_cache <;> rfl

lemma frame_teamop_team_member_rates_cache (rm : Remote) (s : ApiState) :
    ((get_team_by_identity_id rm s).2.1).team_member_rates_cache = s.team_member_rates_cache := by
  unfold get_team_by_identity_id
  cases h : s.team_cache <;> rfl

lemma frame_teamop_staff_cache (rm : Remote) (s : ApiState) :
    ((get_team_by_identity_id rm s).2.1).staff_cache = s.staff_cache := by
  unfold get_team_by_identity_id
  cases h : s.team_cache <;> rfl

lemma frame_teamop_project_members_cache (rm : Remote) (s : ApiState) :
    ((get_team_by_identity_id rm s).2.1).project_members_cache = s.project_members_cache := by
  unfold get_team_by_identity_id
  cases h : s.team_cache <;> rfl

lemma frame_pmop_services_cache (rm : Remote) (s : ApiState) :
    ((list_project_members rm s).2.1).services_cache = s.services_cache := by
  unfold list_project_members
  cases h : s.project_members_cache <;> rfl

lemma frame_pmop_service_rates_cache (rm : Remote) (s : ApiState) :
    ((list_project_members rm s).2.1).service_rates_cache = s.service_rates_cache := by
  unfold list_project_members
  cases h : s.project_members_cache <;> rfl

lemma frame_pmop_team_member_rates_cache (rm : Remote) (s : ApiState) :
    ((list_project_members rm s).2.1).team_member_rates_cache = s.team_member_rates_cache := by
  unfold list_project_members
  cases h : s.project_members_cache <;> rfl

lemma frame_pmop_team_cache (rm : Remote) (s : ApiState) :
    ((list_project_members rm s).2.1).team_cache = s.team_cache := by
  unfold list_project_members
  cases h : s.project_members_cache <;> rfl

lemma frame_pmop_staff_cache (rm : Remote) (s : ApiState) :
    ((list_project_members rm s).2.1).staff_cache = s.staff_cache := by
  unfold list_project_members
  cases h : s.project_members_cache <;> rfl

lemma frame_svcop_services_cache (rm : Remote) (s : ApiState) (sid : ℕ) :
    ((get_service_rate rm s sid).2.1).services_cache = s.services_cache := by
  unfold get_service_rate
  cases h : dictGet s.service_rates_cache sid <;> rfl

lemma frame_svcop_team_member_rates_cache (rm : Remote) (s : ApiState) (sid : ℕ) :
    ((get_service_rate rm s sid).2.1).team_member_rates_cache = s.team_member_rates_cache := by
  unfold get_service_rate
  cases h : dictGet s.service_rates_cache sid <;> rfl

lemma frame_svcop_team_cache (rm : Remote) (s : ApiState) (sid : ℕ) :
    ((get_service_rate rm s sid).2.1).team_cache = s.team_cache := by
  unfold get_service_rate
  cases h : dictGet s.service_rates_cache sid <;> rfl

lemma frame_svcop_staff_cache (rm : Remote) (s : ApiState) (sid : ℕ) :
    ((get_service_rate rm s sid).2.1).staff_cache = s.staff_cache := by
  unfold get_service_rate
  cases h : dictGet s.service_rates_cache sid <;> rfl

lemma frame_svcop_project_members_cache (rm : Remote) (s : ApiState) (sid : ℕ) :
    ((get_service_rate rm s sid).2.1).project_members_cache = s.project_members_cache := by
  unfold get_service_rate
  cases h : dictGet s.service_rates_cache sid <;> rfl


lemma team_idem (rm : Remote) (s : ApiState) :
    get_team_by_identity_id rm ((get_team_by_identity_id rm s).2.1)
      = ((get_team_by_identity_id rm s).1, (get_team_by_identity_id rm s).2.1, []) :=
  team_hit rm _ _ (team_run_cache rm s)

lemma staff_idem (rm : Remote) (s : ApiState) :
    get_staff_by_id rm ((get_staff_by_id rm s).2.1)
      = ((get_staff_by_id rm s).1, (get_staff_by_id rm s).2.1, []) :=
  staff_hit rm _ _ (staff_run_cache rm s)

lemma tmr_idem (rm : Remote) (s : ApiState) :
    get_team_member_rates rm ((get_team_member_rates rm s).2.1)
      = ((get_team_member_rates rm s).1, (get_team_member_rates rm s).2.1, []) :=
  tmr_hit rm _ _ (tmr_run_cache rm s)

lemma pm_idem (rm : Remote) (s : ApiState) :
    list_project_members rm ((list_project_members rm s).2.1)
      = ((list_project_members rm s).1, (list_project_members rm s).2.1, []) :=
  pm_hit rm _ _ (pm_run_cache rm s)

lemma services_idem (rm : Remote) (s : ApiState) :
    get_services_by_id rm ((get_services_by_id rm s).2.1)
      = ((get_services_by_id rm s).1, (get_services_by_id rm s).2.1, []) :=
  services_hit rm _ _ (services_run_cache rm s)

lemma svc_idem (rm : Remote) (s : ApiState) (sid : ℕ) :
    get_service_rate rm ((get_service_rate rm s sid).2.1) sid
      = ((get_service_rate rm s sid).1, (get_service_rate rm s sid).2.1, []) :=
  svc_hit rm _ sid _ (svc_run_cache rm s sid)

lemma email_idem (rm : Remote) (s : ApiState) (identity_id : ℕ) :
    get_team_member_email rm ((get_team_member_email rm s identity_id).2.1) identity_id
      = ((get_team_member_email rm s identity_id).1,
         (get_team_member_email rm s identity_id).2.1, []) := by
  unfold get_team_member_email
  cases h1 : dictGet (get_team_by_identity_id rm s).1 identity_id with
  | some m =>
    simp only [h1]
    rw [team_hit rm _ _ (team_run_cache rm s)]
    simp [h1]
  | none =>
    simp only [h1]
    cases h2 : dictGet (get_staff_by_id rm (get_team_by_identity_id rm s).2.1).1 identity_id with
    | some sm =>
      simp only [h2]
      rw [team_hit rm _ _ (by rw [frame_staffop_team_cache]; exact team_run_cache rm s)]
      simp only [h1]
      rw [staff_hit rm _ _ (staff_run_cache rm _)]
      simp [h2]
    | none =>
      simp only [h2]
      cases h3 : dictGet (list_project_members rm
          (get_staff_by_id rm (get_team_by_identity_id rm s).2.1).2.1).1 identity_id with
      | some pmem =>
        simp only [h3]
        rw [team_hit rm _ _
          (by rw [frame_pmop_team_cache, frame_staffop_team_cache]
              exact team_run_cache rm s)]
        simp only [h1]
        rw [staff_hit rm _ _
          (by rw [frame_pmop_staff_cache]; exact staff_run_cache rm _)]
        simp only [h2]
        rw [pm_hit rm _ _ (pm_run_cache rm _)]
        simp [h3]
      | none =>
        simp only [h3]
        rw [team_hit rm _ _
          (by rw [frame_pmop_team_cache, frame_staffop_team_cache]
              exact team_run_cache rm s)]
        simp only [h1]
        rw [staff_hit rm _ _
          (by rw [frame_pmop_staff_cache]; exact staff_run_cache rm _)]
        simp only [h2]
        rw [pm_hit rm _ _ (pm_run_cache rm _)]
        simp [h3]



lemma email_frame_tmrc (rm : Remote) (s : ApiState) (identity_id : ℕ) :
    ((get_team_member_email rm s identity_id).2.1).team_member_rates_cache
      = s.team_member_rates_cache := by
  unfold get_team_member_email
  cases h1 : dictGet (get_team_by_identity_id rm s).1 identity_id
  case some m => simp [h1, frame_teamop_team_member_rates_cache]
  case none =>
    cases h2 : dictGet (get_staff_by_id rm (get_team_by_identity_id rm s).2.1).1 identity_id
    case some sm =>
      simp [h1, h2, frame_staffop_team_member_rates_cache,
        frame_teamop_team_member_rates_cache]
    case none =>
      cases h3 : dictGet (list_project_members rm
          (get_staff_by_id rm (get_team_by_identity_id rm s).2.1).2.1).1 identity_id <;>
        simp [h1, h2, h3, frame_pmop_team_member_rates_cache,
          frame_staffop_team_member_rates_cache, frame_teamop_team_member_rates_cache]

lemma email_frame_svc (rm : Remote) (s : ApiState) (identity_id : ℕ) :
    ((get_team_member_email rm s identity_id).2.1).service_rates_cache
      = s.service_rates_cache := by
  unfold get_team_member_email
  cases h1 : dictGet (get_team_by_identity_id rm s).1 identity_id
  case some m => simp [h1, frame_teamop_service_rates_cache]
  case none =>
    cases h2 : dictGet (get_staff_by_id rm (get_team_by_identity_id rm s).2.1).1 identity_id
    case some sm =>
      simp [h1, h2, frame_staffop_service_rates_cache, frame_teamop_service_rates_cache]
    case none =>
      cases h3 : dictGet (list_project_members rm
          (get_staff_by_id rm (get_team_by_identity_id rm s).2.1).2.1).1 identity_id <;>
        simp [h1, h2, h3, frame_pmop_service_rates_cache,
          frame_staffop_service_rates_cache, frame_teamop_service_rates_cache]

lemma email_preserves_staff (rm : Remote) (s : ApiState) (identity_id : ℕ)
    (m : List (ℕ × Staff)) (h : s.staff_cache = some m) :
    ((get_team_member_email rm s identity_id).2.1).staff_cache = some m := by
  unfold get_team_member_email
  have hts : ((get_team_by_identity_id rm s).2.1).staff_cache = some m := by
    rw [frame_teamop_staff_cache]; exact h
  cases h1 : dictGet (get_team_by_identity_id rm s).1 identity_id
  case some mm => simpa [h1] using hts
  case none =>
    simp only [h1]
    rw [staff_hit rm _ m hts]
    cases h2 : dictGet m identity_id
    case some sm => simpa [h1, h2] using hts
    case none =>
      cases h3 : dictGet (list_project_members rm
          ((get_team_by_identity_id rm s).2.1)).1 identity_id <;>
        simp [h1, h2, h3, frame_pmop_staff_cache, hts]

lemma staff_rate_run_state (rm : Remote) (s : ApiState) (identity_id : ℕ) :
    (get_staff_rate rm s identity_id).2.1 = (get_staff_by_id rm s).2.1 := by
  simp only [get_staff_rate]
  cases h : dictGet (get_staff_by_id rm s).1 identity_id <;> simp [h]

lemma staff_rate_frame_tmrc (rm : Remote) (s : ApiState) (identity_id : ℕ) :
    ((get_staff_rate rm s identity_id).2.1).team_member_rates_cache
      = s.team_member_rates_cache := by
  rw [staff_rate_run_state, frame_staffop_team_member_rates_cache]

lemma staff_rate_frame_svc (rm : Remote) (s : ApiState) (identity_id : ℕ) :
    ((get_staff_rate rm s identity_id).2.1).service_rates_cache
      = s.service_rates_cache := by
  rw [staff_rate_run_state, frame_staffop_service_rates_cache]

lemma staff_rate_staff_cache (rm : Remote) (s : ApiState) (identity_id : ℕ) :
    ((get_staff_rate rm s identity_id).2.1).staff_cache
      = some ((get_staff_by_id rm s).1) := by
  rw [staff_rate_run_state]
  exact staff_run_cache rm s

lemma staff_rate_stable (rm : Remote) (s s2 : ApiState) (identity_id : ℕ)
    (h2 : s2.staff_cache = some ((get_staff_by_id rm s).1)) :
    get_staff_rate rm s2 identity_id = ((get_staff_rate rm s identity_id).1, s2, []) := by
  unfold get_staff_rate
  rw [staff_hit rm s2 _ h2]
  cases h : dictGet (get_staff_by_id rm s).1 identity_id <;> simp [h]

lemma tmbr_stable (rm : Remote) (s s2 : ApiState) (identity_id : ℕ)
    (h2 : s2.team_member_rates_cache = some ((get_team_member_rates rm s).1)) :
    get_team_member_billable_rate rm s2 identity_id
      = ((get_team_member_billable_rate rm s identity_id).1, s2, []) := by
  unfold get_team_member_billable_rate
  rw [tmr_hit rm s2 _ h2]



lemma tmbr_run_state (rm : Remote) (s : ApiState) (identity_id : ℕ) :
    (get_team_member_billable_rate rm s identity_id).2.1
      = (get_team_member_rates rm s).2.1 := rfl

lemma tail_idem (rm : Remote) (cfg : RatesConfig) (s : ApiState) (identity_id : ℕ) :
    billable_tail rm cfg (billable_tail rm cfg s identity_id).2.1 identity_id
      = ((billable_tail rm cfg s identity_id).1,
         (billable_tail rm cfg s identity_id).2.1, []) := by
  cases h3 : posOpt ((get_team_member_billable_rate rm s identity_id).1) with
  | true =>
    have hrun : billable_tail rm cfg s identity_id
        = get_team_member_billable_rate rm s identity_id := by
      unfold billable_tail
      simp [h3]
    rw [hrun]
    unfold billable_tail
    rw [tmbr_stable rm s _ identity_id (by rw [tmbr_run_state]; exact tmr_run_cache rm s)]
    simp [h3]
  | false =>
    cases h4 : posOpt ((get_staff_rate rm
        (get_team_member_billable_rate rm s identity_id).2.1 identity_id).1) with
    | true =>
      have hrun : billable_tail rm cfg s identity_id
          = ((get_staff_rate rm
                (get_team_member_billable_rate rm s identity_id).2.1 identity_id).1,
             (get_staff_rate rm
                (get_team_member_billable_rate rm s identity_id).2.1 identity_id).2.1,
             (get_team_member_billable_rate rm s identity_id).2.2
               ++ (get_staff_rate rm
                    (get_team_member_billable_rate rm s identity_id).2.1 identity_id).2.2) := by
        unfold billable_tail
        simp [h3, h4]
      rw [hrun]
      unfold billable_tail
      rw [tmbr_stable rm s _ identity_id
        (by rw [staff_rate_frame_tmrc, tmbr_run_state]; exact tmr_run_cache rm s)]
      simp only [h3, Bool.false_eq_true, if_false]
      rw [staff_rate_stable rm ((get_team_member_billable_rate rm s identity_id).2.1) _
        identity_id (staff_rate_staff_cache rm _ identity_id)]
      simp [h4]
    | false =>
      have hrun : billable_tail rm cfg s identity_id
          = ((match (get_team_member_email rm
                (get_staff_rate rm
                  (get_team_member_billable_rate rm s identity_id).2.1 identity_id).2.1
                identity_id).1 with
              | some e =>
                if e ≠ "" then
                  if posOpt (cfg.get_billable_rate e) then cfg.get_billable_rate e
                  else cfg.default_billable_rate
                else cfg.default_billable_rate
              | none => cfg.default_billable_rate),
             (get_team_member_email rm
                (get_staff_rate rm
                  (get_team_member_billable_rate rm s identity_id).2.1 identity_id).2.1
                identity_id).2.1,
             (get_team_member_billable_rate rm s identity_id).2.2
               ++ (get_staff_rate rm
                    (get_team_member_billable_rate rm s identity_id).2.1 identity_id).2.2
               ++ (get_team_member_email rm
                    (get_staff_rate rm
                      (get_team_member_billable_rate rm s identity_id).2.1 identity_id).2.1
                    identity_id).2.2) := by
        unfold billable_tail
        simp [h3, h4]
      rw [hrun]
      unfold billable_tail
      rw [tmbr_stable rm s _ identity_id
        (by rw [email_frame_tmrc, staff_rate_frame_tmrc, tmbr_run_state]
            exact tmr_run_cache rm s)]
      simp only [h3, Bool.false_eq_true, if_false]
      rw [staff_rate_stable rm ((get_team_member_billable_rate rm s identity_id).2.1) _
        identity_id
        (email_preserves_staff rm _ identity_id _ (staff_rate_staff_cache rm _ identity_id))]
      simp only [h4, Bool.false_eq_true, if_false]
      rw [email_idem rm _ identity_id]
      simp



lemma tail_frame_svc (rm : Remote) (cfg : RatesConfig) (s : ApiState) (identity_id : ℕ) :
    ((billable_tail rm cfg s identity_id).2.1).service_rates_cache
      = s.service_rates_cache := by
  unfold billable_tail
  cases h3 : posOpt ((get_team_member_billable_rate rm s identity_id).1) with
  | true =>
    simp only [h3, if_true]
    rw [tmbr_run_state, frame_tmr_service_rates_cache]
  | false =>
    simp only [h3, Bool.false_eq_true, if_false]
    cases h4 : posOpt ((get_staff_rate rm
        (get_team_member_billable_rate rm s identity_id).2.1 identity_id).1) with
    | true =>
      simp only [h4, if_true]
      rw [staff_rate_frame_svc, tmbr_run_state, frame_tmr_service_rates_cache]
    | false =>
      simp only [h4, Bool.false_eq_true, if_false]
      rw [email_frame_svc, staff_rate_frame_svc, tmbr_run_state,
        frame_tmr_service_rates_cache]

lemma after_idem (rm : Remote) (cfg : RatesConfig) (s : ApiState)
    (identity_id : ℕ) (service_id : Option ℕ) :
    billable_after_override rm cfg
        (billable_after_override rm cfg s identity_id service_id).2.1
        identity_id service_id
      = ((billable_after_override rm cfg s identity_id service_id).1,
         (billable_after_override rm cfg s identity_id service_id).2.1, []) := by
  cases service_id with
  | none =>
    simp only [billable_after_override]
    exact tail_idem rm cfg s identity_id
  | some sid =>
    by_cases hz : sid = 0
    · simp only [billable_after_override, hz, ne_eq, not_true_eq_false, if_false]
      exact tail_idem rm cfg s identity_id
    · simp only [billable_after_override, ne_eq, hz, not_false_iff, if_true]
      cases h2 : posOpt ((get_service_rate rm s sid).1) with
      | true =>
        simp only [h2, if_true]
        rw [svc_idem rm s sid]
        simp [h2]
      | false =>
        simp only [h2, Bool.false_eq_true, if_false]
        rw [svc_hit rm _ sid _
          (by rw [tail_frame_svc]; exact svc_run_cache rm s sid)]
        simp only [h2, Bool.false_eq_true, if_false]
        rw [tail_idem rm cfg _ identity_id]
        simp

lemma billable_idem (rm : Remote) (cfg : RatesConfig) (s : ApiState)
    (identity_id : ℕ) (service_id : Option ℕ) :
    get_billable_rate rm cfg
        (get_billable_rate rm cfg s identity_id service_id).2.1 identity_id service_id
      = ((get_billable_rate rm cfg s identity_id service_id).1,
         (get_billable_rate rm cfg s identity_id service_id).2.1, []) := by
  unfold get_billable_rate
  cases h1 : posOpt (cfg.get_billable_rate_by_id identity_id) with
  | true => simp [h1]
  | false =>
    simp only [h1, Bool.false_eq_true, if_false]
    exact after_idem rm cfg s identity_id service_id

lemma tmr_log (rm : Remote) (s : ApiState) :
    (get_team_member_rates rm s).2.2 = []
      ∨ (get_team_member_rates rm s).2.2 = [Endpoint.teamMemberRates] := by
  unfold get_team_member_rates
  cases h : s.team_member_rates_cache with
  | some m => left; simp [h]
  | none => right; cases he : rm.team_member_rates <;> simp [h, he]

lemma staff_log (rm : Remote) (s : ApiState) :
    (get_staff_by_id rm s).2.2 = [] ∨ (get_staff_by_id rm s).2.2 = [Endpoint.staffs] := by
  unfold get_staff_by_id
  cases h : s.staff_cache with
  | some m => left; simp [h]
  | none => right; simp [h]

lemma team_log (rm : Remote) (s : ApiState) :
    (get_team_by_identity_id rm s).2.2 = []
      ∨ (get_team_by_identity_id rm s).2.2 = [Endpoint.teamMembers] := by
  unfold get_team_by_identity_id
  cases h : s.team_cache with
  | some m => left; simp [h]
  | none => right; simp [h]

lemma pm_log (rm : Remote) (s : ApiState) :
    (list_project_members rm s).2.2 = []
      ∨ (list_project_members rm s).2.2 = [Endpoint.projects] := by
  unfold list_project_members
  cases h : s.project_members_cache with
  | some m => left; simp [h]
  | none => right; simp [h]

lemma svc_log (rm : Remote) (s : ApiState) (sid : ℕ) :
    (get_service_rate rm s sid).2.2 = []
      ∨ (get_service_rate rm s sid).2.2 = [Endpoint.serviceRate sid] := by
  unfold get_service_rate
  cases h : dictGet s.service_rates_cache sid with
  | some v => left; simp [h]
  | none => right; simp [h]

lemma staff_rate_log (rm : Remote) (s : ApiState) (identity_id : ℕ) :
    (get_staff_rate rm s identity_id).2.2 = (get_staff_by_id rm s).2.2 := by
  simp only [get_staff_rate]
  cases h : dictGet (get_staff_by_id rm s).1 identity_id <;> simp [h]

lemma email_log_count (rm : Remote) (s : ApiState) (identity_id : ℕ) (ep : Endpoint)
    (hne1 : ep ≠ Endpoint.teamMembers) (hne2 : ep ≠ Endpoint.staffs)
    (hne3 : ep ≠ Endpoint.projects) :
    List.count ep (get_team_member_email rm s identity_id).2.2 = 0 := by
  unfold get_team_member_email
  rcases team_log rm s with ht | ht <;>
  rcases staff_log rm ((get_team_by_identity_id rm s).2.1) with hs | hs <;>
  rcases pm_log rm ((get_staff_by_id rm (get_team_by_identity_id rm s).2.1).2.1) with hp | hp <;>
  cases h1 : dictGet (get_team_by_identity_id rm s).1 identity_id <;>
  try cases h2 : dictGet (get_staff_by_id rm (get_team_by_identity_id rm s).2.1).1 identity_id <;>
  try cases h3 : dictGet (list_project_members rm
      (get_staff_by_id rm (get_team_by_identity_id rm s).2.1).2.1).1 identity_id <;>
  simp_all [List.count_cons, List.count_append, Ne.symm hne1, Ne.symm hne2, Ne.symm hne3]



lemma count_tail_tmr (rm : Remote) (cfg : RatesConfig) (s : ApiState) (identity_id : ℕ) :
    List.count Endpoint.teamMemberRates (billable_tail rm cfg s identity_id).2.2 ≤ 1 := by
  unfold billable_tail get_team_member_billable_rate
  have he := email_log_count rm
    ((get_staff_rate rm (get_team_member_rates rm s).2.1 identity_id).2.1) identity_id
    Endpoint.teamMemberRates (by decide) (by decide) (by decide)
  rcases tmr_log rm s with ht | ht <;>
  rcases staff_log rm ((get_team_member_rates rm s).2.1) with hs | hs <;>
  cases h3 : posOpt (dictGet (get_team_member_rates rm s).1 identity_id) <;>
  cases h4 : posOpt ((get_staff_rate rm (get_team_member_rates rm s).2.1 identity_id).1) <;>
  simp_all [List.count_cons, List.count_append, staff_rate_log]

lemma count_tail_other (rm : Remote) (cfg : RatesConfig) (s : ApiState) (identity_id : ℕ)
    (ep : Endpoint) (h0 : ep ≠ Endpoint.teamMemberRates) (h1 : ep ≠ Endpoint.teamMembers)
    (h2 : ep ≠ Endpoint.staffs) (h3 : ep ≠ Endpoint.projects) :
    List.count ep (billable_tail rm cfg s identity_id).2.2 = 0 := by
  unfold billable_tail get_team_member_billable_rate
  have he := email_log_count rm
    ((get_staff_rate rm (get_team_member_rates rm s).2.1 identity_id).2.1) identity_id
    ep h1 h2 h3
  rcases tmr_log rm s with ht | ht <;>
  rcases staff_log rm ((get_team_member_rates rm s).2.1) with hs | hs <;>
  cases hc3 : posOpt (dictGet (get_team_member_rates rm s).1 identity_id) <;>
  cases hc4 : posOpt ((get_staff_rate rm (get_team_member_rates rm s).2.1 identity_id).1) <;>
  simp_all [List.count_cons, List.count_append, staff_rate_log, Ne.symm h0,
    Ne.symm h1, Ne.symm h2, Ne.symm h3]

lemma csf_single (sid : ℕ) : countServiceFetches [Endpoint.serviceRate sid] = 1 := rfl

lemma count_after_csf (rm : Remote) (cfg : RatesConfig) (s : ApiState)
    (identity_id : ℕ) (service_id : Option ℕ) :
    countServiceFetches (billable_after_override rm cfg s identity_id service_id).2.2 ≤ 1 := by
  cases service_id with
  | none =>
    simp only [billable_after_override]
    simp [csf_tail]
  | some sid =>
    by_cases hz : sid = 0
    · simp only [billable_after_override, hz, ne_eq, not_true_eq_false, if_false]
      simp [csf_tail]
    · simp only [billable_after_override, ne_eq, hz, not_false_iff, if_true]
      cases h2 : posOpt ((get_service_rate rm s sid).1) with
      | true =>
        simp only [h2, if_true]
        rcases svc_log rm s sid with h | h <;>
          simp [h, countServiceFetches, Endpoint.is_service_fetch]
      | false =>
        simp only [h2, Bool.false_eq_true, if_false]
        rcases svc_log rm s sid with h | h
        · simp [h, csf_append, csf_tail]
        · rw [h, csf_append, csf_single, csf_tail]

lemma count_after_tmr (rm : Remote) (cfg : RatesConfig) (s : ApiState)
    (identity_id : ℕ) (service_id : Option ℕ) :
    List.count Endpoint.teamMemberRates
      (billable_after_override rm cfg s identity_id service_id).2.2 ≤ 1 := by
  cases service_id with
  | none =>
    simp only [billable_after_override]
    exact count_tail_tmr rm cfg s identity_id
  | some sid =>
    by_cases hz : sid = 0
    · simp only [billable_after_override, hz, ne_eq, not_true_eq_false, if_false]
      exact count_tail_tmr rm cfg s identity_id
    · simp only [billable_after_override, ne_eq, hz, not_false_iff, if_true]
      cases h2 : posOpt ((get_service_rate rm s sid).1) with
      | true =>
        simp only [h2, if_true]
        rcases svc_log rm s sid with h | h <;> simp [h, List.count_cons]
      | false =>
        simp only [h2, Bool.false_eq_true, if_false]
        have := count_tail_tmr rm cfg ((get_service_rate rm s sid).2.1) identity_id
        rcases svc_log rm s sid with h | h <;>
          simp_all [h, List.count_append, List.count_cons]

lemma count_after_services (rm : Remote) (cfg : RatesConfig) (s : ApiState)
    (identity_id : ℕ) (service_id : Option ℕ) :
    List.count Endpoint.services
      (billable_after_override rm cfg s identity_id service_id).2.2 = 0 := by
  have hto := count_tail_other rm cfg s identity_id Endpoint.services
    (by decide) (by decide) (by decide) (by decide)
  cases service_id with
  | none =>
    simpa only [billable_after_override] using hto
  | some sid =>
    by_cases hz : sid = 0
    · simpa only [billable_after_override, hz, ne_eq, not_true_eq_false, if_false] using hto
    · simp only [billable_after_override, ne_eq, hz, not_false_iff, if_true]
      cases h2 : posOpt ((get_service_rate rm s sid).1) with
      | true =>
        simp only [h2, if_true]
        rcases svc_log rm s sid with h | h <;> simp [h, List.count_cons]
      | false =>
        simp only [h2, Bool.false_eq_true, if_false]
        have := count_tail_other rm cfg ((get_service_rate rm s sid).2.1) identity_id
          Endpoint.services (by decide) (by decide) (by decide) (by decide)
        rcases svc_log rm s sid with h | h <;>
          simp_all [h, List.count_append, List.count_cons]

/-- C8: two consecutive `billable_rate` calls for the same (identity_id,
service_id) pair return the identical result with the identical cache
state and trigger no network fetch at all on the second call; the
services-by-id map is likewise memoized (a second call after one fetch
hits the cache); and within the first call the per-service rate endpoint
is hit at most once, the team-member-rate table at most once, and the
services list never. -/
theorem claim_C8_memoized_idempotent (rm : Remote) (cfg : RatesConfig) (s : ApiState)
    (identity_id : ℕ) (service_id : Option ℕ) :
    get_billable_rate rm cfg
        (get_billable_rate rm cfg s identity_id service_id).2.1 identity_id service_id
      = ((get_billable_rate rm cfg s identity_id service_id).1,
         (get_billable_rate rm cfg s identity_id service_id).2.1, []) ∧
    get_services_by_id rm ((get_services_by_id rm s).2.1)
      = ((get_services_by_id rm s).1, (get_services_by_id rm s).2.1, []) ∧
    countServiceFetches (get_billable_rate rm cfg s identity_id service_id).2.2 ≤ 1 ∧
    List.count Endpoint.teamMemberRates
      (get_billable_rate rm cfg s identity_id service_id).2.2 ≤ 1 ∧
    List.count Endpoint.services
      (get_billable_rate rm cfg s identity_id service_id).2.2 = 0 := by
  refine ⟨billable_idem rm cfg s identity_id service_id, services_idem rm s, ?_, ?_, ?_⟩ <;>
    unfold get_billable_rate <;>
    cases h1 : posOpt (cfg.get_billable_rate_by_id identity_id)
  · simp only [h1, Bool.false_eq_true, if_false]
    exact count_after_csf rm cfg s identity_id service_id
  · simp [h1, countServiceFetches]
  · simp only [h1, Bool.false_eq_true, if_false]
    exact count_after_tmr rm cfg s identity_id service_id
  · simp [h1]
  · simp only [h1, Bool.false_eq_true, if_false]
    exact count_after_services rm cfg s identity_id service_id
  · simp [h1]



end FreshbooksTools
